import Mathlib

/-!
# Verification of the agent_hire job-application platform

A shallow embedding of the backend of the `agent_hire` repository
(`src/backend/*.py`, `src/core/*.py`, `src/sandbox/portal.py`,
`src/schemas/*.py`) in Lean 4, together with theorems settling the frozen
claims about it.

Modelling conventions:
* Python dictionaries flowing through the artifact workflow are modelled as
  records whose fields are `Option`-valued (a `none` stands for an absent
  key where the code reads the key with `.get`, and for a JSON `null` where
  the schema declares the field `Optional`).  An `extras` field lists the
  names of any dictionary keys that are not fields of the pydantic model
  receiving the dictionary; pydantic's `extra='forbid'` rejects them.
* Python floats are modelled as rationals (`ℚ`); every arithmetic fact
  proved here about scores holds of the float computation as well at the
  concrete inputs used, and the score weights are exact decimals.
* Exceptions are modelled with `Except String`; pydantic collects all field
  errors before raising, while `Except` short-circuits at the first, so
  when several validators would fail the modelled message is the first
  validator's — no claim distinguishes multi-error messages.
* `random.random() < 0.05` in the sandbox portal, the single source of
  nondeterminism, is modelled by a boolean oracle supplied per call
  (`true` = the call falls in the 5% failure band).
* SHA-256 (a third-party primitive) is abstracted as an injective tagging
  of its input string.
-/

/-- The apostrophe character, used when rendering Python list reprs. -/
def aposChar : Char := Char.ofNat 39

/-- Python `repr` of a list of strings, e.g. `["a", "b"]` prints as
`[` `a` and `b` each wrapped in apostrophes, comma-separated `]`;
used by the sandbox portal's missing-field error. -/
def pyListRepr (xs : List String) : String :=
  "[" ++ String.intercalate ", "
    (xs.map (fun s => String.singleton aposChar ++ s ++ String.singleton aposChar)) ++ "]"

/-- Decimal rendering of a natural number (the digits of `Nat.digits 10`,
most significant first); `natStr 0 = "0"`. -/
def natStr (n : Nat) : String :=
  if n = 0 then "0"
  else String.mk (((Nat.digits 10 n).reverse).map Nat.digitChar)

/-- Python `f"{n:06d}"`: the decimal digits of `n` left-padded with zeros to
a minimum width of 6.  Used for sandbox receipt ids. -/
def pad6 (n : Nat) : String :=
  String.mk (List.replicate (6 - (Nat.digits 10 n).length) (Char.ofNat 48)
    ++ ((Nat.digits 10 n).reverse).map Nat.digitChar)

/-- Two-digit zero-padded rendering of `n < 100`, for `fmt2`. -/
def pad2 (n : Nat) : String :=
  String.mk [Nat.digitChar (n / 10 % 10), Nat.digitChar (n % 10)]

/-- Python `f"{x:.2f}"` on the scores handled by the engine, abstracted to
exact rational rounding to hundredths (the engine only interpolates this
into skip-reason strings no claim depends on). -/
def fmt2 (q : ℚ) : String :=
  let c : ℤ := round (q * 100)
  (if c < 0 then "-" else "") ++ natStr (c.natAbs / 100) ++ "." ++ pad2 (c.natAbs % 100)

/-! ## Dynamic dictionary model of artifact-pack data

`src/backend/models.py` and `src/backend/artifact_services.py` manipulate
the wrapped `student_artifact_pack` as a plain `Dict[str, Any]`; these
records model that dictionary shape. -/

/-- One proof entry of a bullet (`schemas/student_schema.py` `Proof`):
keys `type` and `url`. -/
structure ProofDict where
  ptype : Option String
  url : Option String
  deriving Repr, DecidableEq

/-- A bullet dictionary: keys `description`, `skills`, `verified`,
`proofs`, read with `.get` throughout the backend. -/
structure BulletDict where
  description : Option String
  skills : Option (List String)
  verified : Option Bool
  proofs : Option (List ProofDict)
  deriving Repr, DecidableEq

/-- A project dictionary: keys `name`, `description`, `skills`, `bullets`. -/
structure ProjectDict where
  name : Option String
  description : Option String
  skills : Option (List String)
  bullets : Option (List BulletDict)
  deriving Repr, DecidableEq

/-- An education dictionary: keys `institution`, `degree`, `field_of_study`. -/
structure EducationDict where
  institution : Option String
  degree : Option String
  field_of_study : Option String
  deriving Repr, DecidableEq

/-- A constraints dictionary: keys `max_apps_per_day`, `min_match_score`,
`blocked_companies`. -/
structure ConstraintsDict where
  max_apps_per_day : Option ℤ
  min_match_score : Option ℚ
  blocked_companies : Option (List String)
  deriving Repr, DecidableEq

/-- The `student_artifact_pack` dictionary wrapped by drafts and snapshots
(`StudentArtifactPack` shape).  `extras` lists any dictionary keys that are
not fields of the pydantic `StudentArtifactPack` model (its
`extra='forbid'` config rejects them at schema validation). -/
structure PackDict where
  source_resume_hash : Option String
  skill_vocab : Option (List String)
  education : Option (List EducationDict)
  projects : Option (List ProjectDict)
  constraints : Option ConstraintsDict
  extras : List String
  deriving Repr, DecidableEq

/-! ## Typed execution-format schemas (`src/schemas/student_schema.py`,
`src/schemas/job_schema.py`) -/

/-- `student_schema.Proof`. -/
structure Proof where
  ptype : String
  url : String
  deriving Repr, DecidableEq

/-- `student_schema.Bullet`; its `check_verified` model validator is part
of `parseBullet` below. -/
structure Bullet where
  description : String
  skills : List String
  verified : Bool
  proofs : Option (List Proof)
  deriving Repr, DecidableEq

/-- `student_schema.Project`. -/
structure Project where
  name : String
  description : String
  skills : List String
  bullets : List Bullet
  deriving Repr, DecidableEq

/-- `student_schema.Education`. -/
structure Education where
  institution : String
  degree : Option String
  field_of_study : Option String
  deriving Repr, DecidableEq

/-- `student_schema.Constraints`. -/
structure Constraints where
  max_apps_per_day : ℤ
  min_match_score : ℚ
  blocked_companies : List String
  deriving Repr, DecidableEq

/-- `student_schema.StudentArtifactPack` (validated execution format). -/
structure StudentArtifactPack where
  source_resume_hash : String
  skill_vocab : List String
  education : List Education
  projects : List Project
  constraints : Option Constraints
  deriving Repr, DecidableEq

/-- `job_schema.JobListing` (validated). -/
structure JobListing where
  job_id : String
  company : String
  role : String
  location : String
  required_skills : List String
  min_experience_years : ℤ
  deriving Repr, DecidableEq

/-- A job dictionary as handed to `JobListing(**j)`; `extras` lists keys of
the dictionary that are not `JobListing` fields (`extra='forbid'`). -/
structure JobDict where
  job_id : Option String
  company : Option String
  role : Option String
  location : Option String
  required_skills : Option (List String)
  min_experience_years : Option ℤ
  extras : List String
  deriving Repr, DecidableEq

/-- Pydantic validation of one `Proof` entry: both fields required. -/
def parseProof (p : ProofDict) : Except String Proof :=
  match p.ptype, p.url with
  | some t, some u => .ok { ptype := t, url := u }
  | _, _ => .error "Proof: field required"

/-- Pydantic validation of one `Bullet`: `description`, `skills`,
`verified` required, then the `check_verified` model validator
(`student_schema.py:32-36`). -/
def parseBullet (b : BulletDict) : Except String Bullet := do
  match b.description, b.skills, b.verified with
  | some d, some sk, some v =>
    let proofs ← match b.proofs with
      | none => pure none
      | some ps => (ps.mapM parseProof).map some
    if v = false then
      .error "Every bullet must have verified == true"
    else
      .ok { description := d, skills := sk, verified := v, proofs := proofs }
  | _, _, _ => .error "Bullet: field required"

/-- Pydantic validation of one `Project`: all four fields required;
bullets are validated by nested-model construction. -/
def parseProject (p : ProjectDict) : Except String Project := do
  match p.name, p.description, p.skills, p.bullets with
  | some n, some d, some sk, some bs =>
    let bullets ← bs.mapM parseBullet
    .ok { name := n, description := d, skills := sk, bullets := bullets }
  | _, _, _, _ => .error "Project: field required"

/-- Pydantic validation of one `Education`: `institution` required. -/
def parseEducation (e : EducationDict) : Except String Education :=
  match e.institution with
  | some i => .ok { institution := i, degree := e.degree, field_of_study := e.field_of_study }
  | none => .error "Education: field required"

/-- Pydantic validation of `Constraints`: `max_apps_per_day` and
`min_match_score` required, `blocked_companies` defaults to `[]`. -/
def parseConstraints (c : ConstraintsDict) : Except String Constraints :=
  match c.max_apps_per_day, c.min_match_score with
  | some m, some s =>
    .ok { max_apps_per_day := m, min_match_score := s,
          blocked_companies := c.blocked_companies.getD [] }
  | _, _ => .error "Constraints: field required"

/-- `StudentArtifactPack(**student_data)` (`student_schema.py:51-84`):
`extra='forbid'`, the four required fields, `check_skill_vocab_unique`,
nested `Bullet` validation (every bullet `verified == true`), and the
`validate_all_skills_and_bullets` model validator (project and bullet
skills must be in `skill_vocab`). -/
def parseStudentArtifactPack (p : PackDict) : Except String StudentArtifactPack := do
  if p.extras ≠ [] then
    .error "StudentArtifactPack: extra fields not permitted"
  else
    match p.source_resume_hash, p.skill_vocab, p.education, p.projects with
    | some srh, some vocab, some edu, some projs =>
      if vocab.length ≠ vocab.dedup.length then
        .error "skill_vocab must contain only unique skills"
      else do
        let education ← edu.mapM parseEducation
        let projects ← projs.mapM parseProject
        let constraints ← match p.constraints with
          | none => pure none
          | some c => (parseConstraints c).map some
        for project in projects do
          for ps in project.skills do
            if ps ∉ vocab then
              throw ("Project skill " ++ String.singleton aposChar ++ ps ++
                String.singleton aposChar ++ " in project " ++ String.singleton aposChar ++
                project.name ++ String.singleton aposChar ++ " is not in skill_vocab")
          for bullet in project.bullets do
            for bs in bullet.skills do
              if bs ∉ vocab then
                throw ("Bullet skill " ++ String.singleton aposChar ++ bs ++
                  String.singleton aposChar ++ " in project " ++ String.singleton aposChar ++
                  project.name ++ String.singleton aposChar ++ " is not in skill_vocab")
        .ok { source_resume_hash := srh, skill_vocab := vocab, education := education,
              projects := projects, constraints := constraints }
    | _, _, _, _ => .error "StudentArtifactPack: field required"

/-- `JobListing(**j)` (`job_schema.py`): `extra='forbid'`, six required
fields, `min_experience_years ≥ 0`. -/
def parseJobListing (j : JobDict) : Except String JobListing :=
  if j.extras ≠ [] then
    .error "JobListing: extra fields not permitted"
  else
    match j.job_id, j.company, j.role, j.location, j.required_skills, j.min_experience_years with
    | some jid, some co, some ro, some lo, some rs, some me =>
      if me < 0 then .error "min_experience_years must be >= 0"
      else .ok { job_id := jid, company := co, role := ro, location := lo,
                 required_skills := rs, min_experience_years := me }
    | _, _, _, _, _, _ => .error "JobListing: field required"

/-! ## Approval-workflow models (`src/backend/models.py`) -/

/-- One entry of `UserConfirmation.bullets_verified` (a
`Dict[str, Any]` with keys `bullet_id`, `verified` read by subscript and
`user_modified` read with `.get(..., False)`). -/
structure BulletVerification where
  bullet_id : String
  verified : Bool
  user_modified : Option Bool
  deriving Repr, DecidableEq

/-- `models.UserConfirmation`. -/
structure UserConfirmation where
  bullets_verified : List BulletVerification
  accuracy_confirmed : Bool
  confirmation_timestamp : String
  deriving Repr, DecidableEq

/-- The `approval_metadata` dictionary of a snapshot; `Option` marks key
presence for the two keys `validate_approval_metadata` requires. -/
structure MetaDict where
  user_confirmation : Option UserConfirmation
  verification_count : Option ℕ
  modified_bullets : Option (List String)
  deriving Repr, DecidableEq

/-- `models.DraftArtifactPack` (field values of a constructed instance). -/
structure DraftArtifactPack where
  student_artifact_pack : PackDict
  status : String
  source_profile_hash : String
  deriving Repr, DecidableEq

/-- `models.ArtifactSnapshot` (field values of a constructed instance). -/
structure ArtifactSnapshot where
  id : String
  user_id : ℤ
  student_artifact_pack : PackDict
  approved_at : ℕ
  source_resume_hash : String
  source_profile_hash : String
  frozen : Bool
  approval_metadata : MetaDict
  deriving Repr, DecidableEq

/-- `DraftArtifactPack.validate_no_verified_bullets` (`models.py:92-99`):
error if any bullet of `v.get('projects', [])` has
`bullet.get('verified', False)` true. -/
def validate_no_verified_bullets (v : PackDict) : Except String Unit :=
  if (v.projects.getD []).any (fun p => (p.bullets.getD []).any (fun b => b.verified.getD false))
  then .error "Draft artifacts cannot contain verified: true bullets"
  else .ok ()

/-- `DraftArtifactPack.validate_status_is_draft` (`models.py:86-90`). -/
def validate_status_is_draft (status : String) : Except String Unit :=
  if status ≠ "DRAFT" then
    .error ("DraftArtifactPack status must always be " ++ "\"DRAFT\"")
  else .ok ()

/-- `DraftArtifactPack(...)` construction: field validators in field
declaration order (`student_artifact_pack`, then `status`). -/
def mkDraftArtifactPack (pack : PackDict) (status : String) (source_profile_hash : String) :
    Except String DraftArtifactPack := do
  let _ ← validate_no_verified_bullets pack
  let _ ← validate_status_is_draft status
  .ok { student_artifact_pack := pack, status := status,
        source_profile_hash := source_profile_hash }

/-- `ArtifactSnapshot.validate_frozen_always_true` (`models.py:40-44`). -/
def validate_frozen_always_true (v : Bool) : Except String Unit :=
  if v = false then .error "ArtifactSnapshot must always be frozen (frozen: true)"
  else .ok ()

/-- The first of the four required pack fields that is missing, in the
order `validate_student_artifact_pack_structure` checks them. -/
def firstMissingPackField (v : PackDict) : Option String :=
  if v.source_resume_hash.isNone then some "source_resume_hash"
  else if v.skill_vocab.isNone then some "skill_vocab"
  else if v.education.isNone then some "education"
  else if v.projects.isNone then some "projects"
  else none

/-- `ArtifactSnapshot.validate_student_artifact_pack_structure`
(`models.py:46-60`): the four required fields must be present and every
bullet of `v.get('projects', [])` must have `bullet.get('verified', False)`
true. -/
def validate_student_artifact_pack_structure (v : PackDict) : Except String Unit :=
  match firstMissingPackField v with
  | some f => .error ("StudentArtifactPack missing required field: " ++ f)
  | none =>
    if (v.projects.getD []).all (fun p => (p.bullets.getD []).all (fun b => b.verified.getD false))
    then .ok ()
    else .error "All bullets in approved ArtifactSnapshot must be verified: true"

/-- `ArtifactSnapshot.validate_approval_metadata` (`models.py:62-68`). -/
def validate_approval_metadata (v : MetaDict) : Except String Unit :=
  if v.user_confirmation.isNone then
    .error "Approval metadata missing required field: user_confirmation"
  else if v.verification_count.isNone then
    .error "Approval metadata missing required field: verification_count"
  else .ok ()

/-- `ArtifactSnapshot(...)` construction: field validators in field
declaration order (`student_artifact_pack`, then `frozen`, then
`approval_metadata`). -/
def mkArtifactSnapshot (id : String) (user_id : ℤ) (pack : PackDict) (approved_at : ℕ)
    (source_resume_hash source_profile_hash : String) (frozen : Bool) (meta : MetaDict) :
    Except String ArtifactSnapshot := do
  let _ ← validate_student_artifact_pack_structure pack
  let _ ← validate_frozen_always_true frozen
  let _ ← validate_approval_metadata meta
  .ok { id := id, user_id := user_id, student_artifact_pack := pack,
        approved_at := approved_at, source_resume_hash := source_resume_hash,
        source_profile_hash := source_profile_hash, frozen := frozen,
        approval_metadata := meta }

/-- `ArtifactSnapshot.generate_integrity_hash` (`models.py:70-73`): SHA-256
of `f"{user_id}:{source_resume_hash}:{approved_at}"`, with SHA-256
abstracted as an injective tagging of the hashed content. -/
def generate_integrity_hash (s : ArtifactSnapshot) : String :=
  "sha256:" ++ toString s.user_id ++ ":" ++ s.source_resume_hash ++ ":" ++ natStr s.approved_at

/-! ## Match scorer (`src/core/scorer.py`) -/

/-- The result of `score_job_match`: the overall score and the three
explanation components. -/
structure ScoreResult where
  score : ℚ
  skill_overlap : ℚ
  experience_fit : ℚ
  constraint_match : ℚ
  deriving Repr, DecidableEq

/-- `score_job_match` (`scorer.py:5-62`). `set(job.required_skills)` and
the intersection with `set(student.skill_vocab)` are modelled with
`List.dedup` and filtered membership; weights `0.5/0.3/0.2` are the exact
rationals; the final `max(0.0, min(1.0, score))` clamp is kept. -/
def score_job_match (student : StudentArtifactPack) (job : JobListing) : ScoreResult :=
  let req := job.required_skills.dedup
  let skill_overlap : ℚ :=
    if req.isEmpty then 1
    else ((req.filter (fun s => s ∈ student.skill_vocab)).length : ℚ) / (req.length : ℚ)
  let experience_fit : ℚ := if job.min_experience_years = 0 then 1 else 0
  let constraint_match : ℚ := 1
  let score : ℚ := (1/2) * skill_overlap + (3/10) * experience_fit + (1/5) * constraint_match
  { score := max 0 (min 1 score), skill_overlap := skill_overlap,
    experience_fit := experience_fit, constraint_match := constraint_match }

/-! ## Application content generator (`src/core/generator.py`) -/

/-- The content dictionary returned by `generate_application_content`
(`answers` is always the empty library). -/
structure AppContent where
  selected_bullets : List Bullet
  cover_paragraph : String
  answers : List (String × String)
  deriving Repr, DecidableEq

/-- The relevant verified bullets collected by
`generate_application_content` (`generator.py:27-35`): every bullet, in
project-then-bullet order, whose skill set intersects the job's required
skills. -/
def relevantBullets (student : StudentArtifactPack) (job : JobListing) : List Bullet :=
  student.projects.flatMap
    (fun p => p.bullets.filter (fun b => b.skills.any (fun s => s ∈ job.required_skills)))

/-- `generate_application_content` (`generator.py:9-56`).  Note the source
composes `cover_paragraph` from ALL relevant bullets and only afterwards
caps `selected_bullets` to the first 3 (`generator.py:40-49`). -/
def generate_application_content (student : StudentArtifactPack) (job : JobListing) :
    Option AppContent × Option String :=
  let rel := relevantBullets student job
  if rel.isEmpty then (none, some "NO_RELEVANT_VERIFIED_BULLETS")
  else
    let cover := "I am applying for the " ++ job.role ++ " position. My background includes "
      ++ String.intercalate ", " (rel.map (fun b => b.description)) ++ "."
    (some { selected_bullets := rel.take 3, cover_paragraph := cover, answers := [] }, none)

/-! ## Sandbox job portal (`src/sandbox/portal.py`) -/

/-- The application dictionary `SandboxJobPortal.submit_application`
receives; `none` marks an absent key. -/
structure AppDict where
  job_id : Option String
  student_id : Option String
  content : Option AppContent
  deriving Repr, DecidableEq

/-- The required-field names missing from an application, in the order
`portal.py:23-24` collects them. -/
def missingFields (a : AppDict) : List String :=
  (if a.job_id.isNone then ["job_id"] else [])
  ++ (if a.student_id.isNone then ["student_id"] else [])
  ++ (if a.content.isNone then ["content"] else [])

/-- The portal's transient-failure message (`portal.py:31`). -/
def randomRejectMsg : String :=
  "Submission failed due to random rejection (sandbox mode)."

/-- `SandboxJobPortal.submit_application` (`portal.py:21-40`), on the
portal state `c` (the `_app_counter`).  `randFail` is the oracle for
`random.random() < FAILURE_RATE`.  Returns the receipt id and the new
counter; the counter is untouched on either failure path. -/
def submit_application (c : ℕ) (randFail : Bool) (a : AppDict) :
    Except String (String × ℕ) :=
  if missingFields a ≠ [] then
    .error ("Missing required application field(s): " ++ pyListRepr (missingFields a))
  else if randFail then
    .error randomRejectMsg
  else
    .ok ("sandbox-" ++ pad6 (c + 1), c + 1)

/-- A sequence of `submit_application` calls against one portal instance:
each call supplies the application and its failure-oracle value; returns
the per-call results and the final counter. -/
def runPortal (c : ℕ) : List (AppDict × Bool) → List (Except String String) × ℕ
  | [] => ([], c)
  | (a, f) :: rest =>
    match submit_application c f a with
    | .ok (r, c1) => let (rs, ce) := runPortal c1 rest; (.ok r :: rs, ce)
    | .error e => let (rs, ce) := runPortal c rest; (.error e :: rs, ce)

/-- The receipt ids of the successful calls of a result list, in order. -/
def successReceipts (rs : List (Except String String)) : List String :=
  rs.filterMap (fun r => match r with | .ok s => some s | .error _ => none)

/-! ## Application tracker and job eligibility validator

`src/backend/engine.py` imports `core.tracker.ApplicationTracker` and
`core.validator.validate_job_for_scoring`, whose source files are not part
of the repository; both are modelled from the spec below. -/

/-- One tracked event, as the Engine Gateway later reads it
(`artifact_services.py:394-401`): job id, status, optional reason,
optional receipt id, numeric timestamp. -/
structure TrackEvent where
  job_id : String
  status : String
  reason : Option String
  receipt_id : Option String
  timestamp : ℕ
  deriving Repr, DecidableEq

/-- Modelled from the spec: `core/tracker.py` (Application Tracker, §4.14)
is imported by the engine but its source is not in the repository.  Per
the spec it records one event per decision point with job id, status,
optional reason, optional receipt id and a numeric timestamp, and exposes
the accumulated event list; a fresh construction starts empty.  The
timestamp is modelled as the event's sequence number. -/
def trackEvent (events : List TrackEvent) (job_id status : String)
    (reason receipt_id : Option String) : List TrackEvent :=
  events ++ [{ job_id := job_id, status := status, reason := reason,
               receipt_id := receipt_id, timestamp := events.length }]

/-- Modelled from the spec: `core/validator.py` (Job Eligibility
Validator, §4.15) is imported by the engine but its source is not in the
repository.  Per the spec it decides, from the approved profile, one job
and the count of applications already sent today, whether the job may
proceed to scoring, returning allowed or a human-readable reason:
blocked-company membership and the daily application quota are the
enforced constraints (a profile without constraints has none to
enforce). -/
def validate_job_for_scoring (student : StudentArtifactPack) (job : JobListing)
    (appsToday : ℕ) : Bool × String :=
  match student.constraints with
  | none => (true, "")
  | some c =>
    if job.company ∈ c.blocked_companies then
      (false, "Company " ++ job.company ++ " is blocked by user constraints")
    else if c.max_apps_per_day ≤ (appsToday : ℤ) then
      (false, "Daily application limit reached")
    else (true, "")

/-! ## Autopilot engine (`src/backend/engine.py`) -/

/-- The outcome classification of the submission step for one job. -/
inductive SubmitStatus where
  | submitted
  | retried
  | failed
  deriving Repr, DecidableEq

/-- The string the tracker records for a `SubmitStatus`. -/
def SubmitStatus.text : SubmitStatus → String
  | .submitted => "submitted"
  | .retried => "retried"
  | .failed => "failed"

/-- What the submission step of one job produced. -/
structure SubmitOutcome where
  status : SubmitStatus
  reason : Option String
  receipt_id : Option String
  counter : ℕ
  attempts : ℕ
  deriving Repr, DecidableEq

/-- The submit-with-retry logic of the engine loop (`engine.py:117-141`):
one `portal.submit_application` call; on an exception, exactly one retry;
on a second exception the job fails with reason
`"Submission failed twice: {e2}"` (interpolating the retry's error).
`c` is the portal counter; `o1`, `o2` are the failure-oracle values of the
two potential calls; `attempts` counts the portal calls made. -/
def submitWithRetry (c : ℕ) (o1 o2 : Bool) (app : AppDict) : SubmitOutcome :=
  match submit_application c o1 app with
  | .ok (r, c1) =>
    { status := .submitted, reason := none, receipt_id := some r, counter := c1, attempts := 1 }
  | .error _ =>
    match submit_application c o2 app with
    | .ok (r, c1) =>
      { status := .retried, reason := none, receipt_id := some r, counter := c1, attempts := 2 }
    | .error e2 =>
      { status := .failed, reason := some ("Submission failed twice: " ++ e2),
        receipt_id := none, counter := c, attempts := 2 }

/-- The mutable state of the engine loop (`engine.py:68-75`): tracker
events, the five summary counters, the per-run `apps_today` counter, the
portal's `_app_counter`, and the index of the next failure-oracle draw. -/
structure EngState where
  events : List TrackEvent
  queued : ℕ
  skipped : ℕ
  submitted : ℕ
  retried : ℕ
  failed : ℕ
  appsToday : ℕ
  portal : ℕ
  oidx : ℕ
  deriving Repr, DecidableEq

/-- The fresh engine-loop state (new tracker, new portal). -/
def EngState.init : EngState :=
  { events := [], queued := 0, skipped := 0, submitted := 0, retried := 0,
    failed := 0, appsToday := 0, portal := 0, oidx := 0 }

/-- The application dictionary the engine composes for submission
(`engine.py:111-115`): all three required fields present. -/
def engineApp (jid sid : String) (content : AppContent) : AppDict :=
  { job_id := some jid, student_id := some sid, content := some content }

/-- One iteration of the engine's per-job loop (`engine.py:78-142`).
A job is tracked `queued`, then gated by the eligibility validator, the
score threshold and the content generator (each skip `continue`s), then
submitted with one retry.  Accessing `student.constraints.min_match_score`
when `constraints` is `None` raises (`engine.py:95`), modelled as an
`Except.error` that aborts the run. -/
def processJob (student : StudentArtifactPack) (oracle : ℕ → Bool) (s : EngState)
    (job : JobListing) : Except String EngState :=
  let s := { s with events := trackEvent s.events job.job_id "queued" none none,
                    queued := s.queued + 1 }
  let (ok, notAllowedReason) := validate_job_for_scoring student job s.appsToday
  if ok = false then
    .ok { s with events := trackEvent s.events job.job_id "skipped" (some notAllowedReason) none,
                 skipped := s.skipped + 1 }
  else
    let score := (score_job_match student job).score
    match student.constraints with
    | none => .error "AttributeError: NoneType has no attribute min_match_score"
    | some cons =>
      if score < cons.min_match_score then
        let reason := "Score " ++ fmt2 score ++ " < required " ++ fmt2 cons.min_match_score
        .ok { s with events := trackEvent s.events job.job_id "skipped" (some reason) none,
                     skipped := s.skipped + 1 }
      else
        match generate_application_content student job with
        | (none, skipReason) =>
          .ok { s with events := trackEvent s.events job.job_id "skipped" skipReason none,
                       skipped := s.skipped + 1 }
        | (some content, _) =>
          let app := engineApp job.job_id student.source_resume_hash content
          let out := submitWithRetry s.portal (oracle s.oidx) (oracle (s.oidx + 1)) app
          let s := { s with
            events := trackEvent s.events job.job_id out.status.text out.reason out.receipt_id,
            submitted := if out.status = SubmitStatus.submitted then s.submitted + 1 else s.submitted,
            retried := if out.status = SubmitStatus.retried then s.retried + 1 else s.retried,
            failed := if out.status = SubmitStatus.failed then s.failed + 1 else s.failed,
            portal := out.counter,
            oidx := s.oidx + out.attempts }
          .ok { s with appsToday := s.appsToday + 1 }

/-- The summary dictionary of a run (`engine.py:144-150`). -/
structure Summary where
  queued : ℕ
  skipped : ℕ
  submitted : ℕ
  retried : ℕ
  failed : ℕ
  deriving Repr, DecidableEq

/-- The dictionary `run_autopilot` returns (`engine.py:152-157` and the
validation-failure returns at `engine.py:48-66`): on a schema-validation
failure `summary` is the empty dict and `tracker` is `None`, both
modelled as `none`. -/
structure RunResult where
  success : Bool
  error : Option String
  summary : Option Summary
  events : Option (List TrackEvent)
  deriving Repr, DecidableEq

/-- Validate the raw job dictionaries in order, naming the first failing
entry 1-indexed (`engine.py:56-66`). -/
def parseJobs : ℕ → List JobDict → Except String (List JobListing)
  | _, [] => .ok []
  | idx, j :: rest =>
    match parseJobListing j with
    | .error e =>
      .error ("Job entry #" ++ natStr (idx + 1) ++ " schema validation failed: " ++ e)
    | .ok job => (parseJobs (idx + 1) rest).map (fun js => job :: js)

/-- `run_autopilot` (`engine.py:24-157`): validate the student pack and
every job against their schemas (failing the run with `success := false`
and no tracker), then run the per-job loop; an exception escaping the loop
propagates as `Except.error`.  `oracle` supplies the portal's random
failure draws in order. -/
def run_autopilot (student_data : PackDict) (jobs_data : List JobDict)
    (oracle : ℕ → Bool) : Except String RunResult :=
  match parseStudentArtifactPack student_data with
  | .error e =>
    .ok { success := false,
          error := some ("Student profile schema validation failed: " ++ e),
          summary := none, events := none }
  | .ok student =>
    match parseJobs 0 jobs_data with
    | .error e => .ok { success := false, error := some e, summary := none, events := none }
    | .ok jobs =>
      (jobs.foldlM (processJob student oracle) EngState.init).map (fun s =>
        { success := true, error := none,
          summary := some { queued := s.queued, skipped := s.skipped,
                            submitted := s.submitted, retried := s.retried,
                            failed := s.failed },
          events := some s.events })

/-! ## Persistent store (`src/backend/database.py`), restricted to the
tables the artifact workflow and the gateway touch.  Row lists are kept
newest-first: an insert prepends, modelling `ORDER BY ... DESC LIMIT 1`
reads on monotone timestamps. -/

/-- A row of `job_listings` (the columns `get_job_by_id` selects, plus the
active flag; the five persisted-only columns are carried along as the
extra dictionary keys they become on read). -/
structure JobRow where
  job_id : String
  company : String
  role : String
  location : String
  required_skills : List String
  min_experience_years : ℤ
  is_active : Bool
  deriving Repr, DecidableEq

/-- A row of `artifact_snapshots` (`database.py:644-660`); the table has
no `frozen` column. -/
structure SnapshotRow where
  id : String
  user_id : ℤ
  student_artifact_pack : PackDict
  approved_at : ℕ
  source_resume_hash : String
  source_profile_hash : String
  approval_metadata : MetaDict
  integrity_hash : String
  deriving Repr, DecidableEq

/-- A row of `draft_artifacts` (`database.py:608-618`). -/
structure DraftRow where
  id : String
  user_id : ℤ
  student_artifact_pack : PackDict
  source_profile_hash : String
  deriving Repr, DecidableEq

/-- A row of `autopilot_runs` (`database.py:407-415`). -/
structure RunRow where
  id : ℕ
  user_id : ℤ
  job_ids : List String
  status : String
  summary : Option Summary
  deriving Repr, DecidableEq

/-- A row of `application_history` (`database.py:512-526`). -/
structure HistoryRow where
  user_id : ℤ
  run_id : ℕ
  job_id : String
  company : String
  role : String
  status : String
  skip_reason : Option String
  receipt_id : Option String
  timestamp : ℕ
  deriving Repr, DecidableEq

/-- The persistent store (`PersistentDatabase`), restricted to the tables
the claims touch. -/
structure DB where
  jobs : List JobRow
  snapshots : List SnapshotRow
  drafts : List DraftRow
  runs : List RunRow
  history : List HistoryRow
  deriving Repr, DecidableEq

/-- `PersistentDatabase.get_job_by_id` (`database.py:378-403`): the first
active listing with the id, returned as a dictionary that also carries the
five persisted-only keys (`description`, `salary_range`, `job_type`,
`posted_date`, `expires_date`) — keys that are not `JobListing` fields. -/
def DB.get_job_by_id (db : DB) (job_id : String) : Option JobDict :=
  (db.jobs.find? (fun r => r.job_id = job_id ∧ r.is_active)).map (fun r =>
    { job_id := some r.job_id, company := some r.company, role := some r.role,
      location := some r.location, required_skills := some r.required_skills,
      min_experience_years := some r.min_experience_years,
      extras := ["description", "salary_range", "job_type", "posted_date", "expires_date"] })

/-- `PersistentDatabase.get_current_artifact_snapshot`
(`database.py:662-688`): the user's most recent snapshot row, or nothing. -/
def DB.get_current_artifact_snapshot (db : DB) (user_id : ℤ) : Option SnapshotRow :=
  db.snapshots.find? (fun r => r.user_id = user_id)

/-- `PersistentDatabase.save_artifact_snapshot` (`database.py:644-660`). -/
def DB.save_artifact_snapshot (db : DB) (row : SnapshotRow) : DB :=
  { db with snapshots := row :: db.snapshots }

/-- `PersistentDatabase.delete_draft_artifacts` (`database.py:690-696`). -/
def DB.delete_draft_artifacts (db : DB) (user_id : ℤ) : DB :=
  { db with drafts := db.drafts.filter (fun r => r.user_id ≠ user_id) }

/-- `PersistentDatabase.create_autopilot_run` (`database.py:407-415`):
inserts a `running` run row and returns its row id.  Note its parameters:
`(user_id, job_ids)` only. -/
def DB.create_autopilot_run (db : DB) (user_id : ℤ) (job_ids : List String) : ℕ × DB :=
  let id := db.runs.length + 1
  (id, { db with runs := { id := id, user_id := user_id, job_ids := job_ids,
                           status := "running", summary := none } :: db.runs })

/-- `PersistentDatabase.save_application_history` (`database.py:497-526`):
one row per tracked application, company/role looked up from the job
listing (falling back to "Unknown"). -/
def DB.save_application_history (db : DB) (user_id : ℤ) (run_id : ℕ)
    (apps : List TrackEvent) : DB :=
  { db with history := db.history ++ apps.map (fun e =>
      let job := db.get_job_by_id e.job_id
      { user_id := user_id, run_id := run_id, job_id := e.job_id,
        company := (job.bind (fun j => j.company)).getD "Unknown",
        role := (job.bind (fun j => j.role)).getD "Unknown",
        status := e.status, skip_reason := e.reason, receipt_id := e.receipt_id,
        timestamp := e.timestamp }) }

/-- `PersistentDatabase.complete_autopilot_run` (`database.py:450-458`). -/
def DB.complete_autopilot_run (db : DB) (run_id : ℕ) (summary : Summary) : DB :=
  { db with runs := db.runs.map (fun r =>
      if r.id = run_id then { r with status := "completed", summary := some summary } else r) }

/-! ## Approval service (`src/backend/artifact_services.py`) -/

/-- `ApprovalService._extract_bullets_from_draft`
(`artifact_services.py:278-284`): the positional bullet ids
`project_{i}_bullet_{j}` of the pack. -/
def extract_bullets_from_draft (pack : PackDict) : List String :=
  (pack.projects.getD []).enum.flatMap (fun ip =>
    (ip.2.bullets.getD []).enum.map (fun jb =>
      "project_" ++ natStr ip.1 ++ "_bullet_" ++ natStr jb.1))

/-- The first draft bullet id missing from the confirmation's
verified-bullet ids, in extraction order. -/
def firstMissingBullet (draft : DraftArtifactPack) (conf : UserConfirmation) : Option String :=
  (extract_bullets_from_draft draft.student_artifact_pack).find?
    (fun bid => (conf.bullets_verified.map (fun bv => bv.bullet_id)).all (fun v => v ≠ bid))

/-- `ApprovalService._validate_user_confirmation`
(`artifact_services.py:262-276`): accuracy checkbox, at least one
verification, and every draft bullet id present among the confirmation's
ids (else fail naming the first missing one). -/
def validate_user_confirmation (conf : UserConfirmation) (draft : DraftArtifactPack) :
    Except String Unit :=
  if conf.accuracy_confirmed = false then
    .error "User must confirm accuracy checkbox"
  else if conf.bullets_verified.isEmpty then
    .error "User must verify at least one bullet"
  else
    match firstMissingBullet draft conf with
    | some bid => .error ("Bullet " ++ bid ++ " not verified by user")
    | none => .ok ()

/-- The confirmation's verification lookup
(`artifact_services.py:295-298`): a dict comprehension, so for duplicate
bullet ids the last entry wins. -/
def lookupVerified (conf : UserConfirmation) (bid : String) : Option Bool :=
  (conf.bullets_verified.reverse.find? (fun bv => bv.bullet_id = bid)).map (fun bv => bv.verified)

/-- The bullet mutation of `_apply_user_verifications`
(`artifact_services.py:301-308`): every bullet's `verified` key is set to
the confirmed value, or `False` when its id was not confirmed. -/
def applyProjects (conf : UserConfirmation) (projects : List ProjectDict) : List ProjectDict :=
  projects.enum.map (fun ip =>
    { ip.2 with bullets := ip.2.bullets.map (fun bs => bs.enum.map (fun jb =>
        { jb.2 with verified := some ((lookupVerified conf
            ("project_" ++ natStr ip.1 ++ "_bullet_" ++ natStr jb.1)).getD false) })) })

/-- `ApprovalService._apply_user_verifications`
(`artifact_services.py:286-310`).  `draft_artifact_pack.copy()` is a
SHALLOW copy: the returned dictionary is a fresh top-level mapping, but
its `projects` list and every project and bullet dictionary inside it are
the very objects of the draft, and the per-bullet `verified` assignments
mutate them in place.  The returned value is therefore also the value the
caller's draft pack holds after the call. -/
def apply_user_verifications (pack : PackDict) (conf : UserConfirmation) : PackDict :=
  match pack.projects with
  | none => pack
  | some ps => { pack with projects := some (applyProjects conf ps) }

/-- `ApprovalService.submit_for_approval` (`artifact_services.py:162-233`).
`snapshot_id` stands for the fresh `uuid.uuid4()` and `approved_at` for
the construction timestamp.  Returns the raised-or-returned result, the
database after the call, and the value the caller's
`draft.student_artifact_pack` holds after the call (mutated through the
shallow copy whenever `_apply_user_verifications` ran). -/
def submit_for_approval (db : DB) (draft : DraftArtifactPack) (conf : UserConfirmation)
    (user_id : ℤ) (snapshot_id : String) (approved_at : ℕ) :
    Except String ArtifactSnapshot × DB × PackDict :=
  match validate_user_confirmation conf draft with
  | .error e => (.error e, db, draft.student_artifact_pack)
  | .ok _ =>
    let approvedPack := apply_user_verifications draft.student_artifact_pack conf
    let meta : MetaDict :=
      { user_confirmation := some conf,
        verification_count := some conf.bullets_verified.length,
        modified_bullets := some ((conf.bullets_verified.filter
          (fun bv => bv.user_modified.getD false)).map (fun bv => bv.bullet_id)) }
    match approvedPack.source_resume_hash with
    | none =>
      (.error "KeyError: source_resume_hash", db, approvedPack)
    | some srh =>
      match mkArtifactSnapshot snapshot_id user_id approvedPack approved_at srh
          draft.source_profile_hash true meta with
      | .error e => (.error e, db, approvedPack)
      | .ok snap =>
        let row : SnapshotRow :=
          { id := snap.id, user_id := user_id, student_artifact_pack := approvedPack,
            approved_at := approved_at, source_resume_hash := snap.source_resume_hash,
            source_profile_hash := snap.source_profile_hash, approval_metadata := meta,
            integrity_hash := generate_integrity_hash snap }
        let db := (db.save_artifact_snapshot row).delete_draft_artifacts user_id
        (.ok snap, db, approvedPack)

/-- `ApprovalService.get_current_approved` (`artifact_services.py:235-260`):
fetch the user's most recent snapshot row and reconstruct an
`ArtifactSnapshot` from it — re-running the model validators, with
`frozen` hard-coded `True` by the read (`database.py:684`).  A validation
failure on the stored data propagates as an exception. -/
def get_current_approved (db : DB) (user_id : ℤ) : Except String (Option ArtifactSnapshot) :=
  match db.get_current_artifact_snapshot user_id with
  | none => .ok none
  | some row =>
    (mkArtifactSnapshot row.id row.user_id row.student_artifact_pack row.approved_at
      row.source_resume_hash row.source_profile_hash true row.approval_metadata).map some

/-! ## Engine gateway (`src/backend/artifact_services.py:313-435`) -/

/-- The first bullet of the pack failing `bullet.get('verified', False)`,
in iteration order (`artifact_services.py:428-435`). -/
def firstUnverifiedBullet (pack : PackDict) : Option BulletDict :=
  ((pack.projects.getD []).flatMap (fun p => p.bullets.getD [])).find?
    (fun b => b.verified.getD false = false)

/-- The gateway's refusal message when no approved snapshot exists
(`artifact_services.py:349-352`). -/
def noSnapshotMsg : String :=
  "Engine execution requires approved artifact snapshot. Please use the "
  ++ String.singleton aposChar ++ "Prepare Application Artifacts" ++ String.singleton aposChar
  ++ " workflow first."

/-- The gateway's unverified-bullet message (`artifact_services.py:433-435`). -/
def unverifiedBulletMsg (b : BulletDict) : String :=
  "Unverified bullet found in approved snapshot: " ++ b.description.getD "Unknown"

/-- The `TypeError` raised at `artifact_services.py:385-389`: the call
passes a `profile_snapshot` keyword argument that
`PersistentDatabase.create_autopilot_run` (`database.py:407`) does not
accept, so Python raises before the method body runs; the gateway's
`except` then converts it into a structured failure. -/
def createRunTypeErrorMsg : String :=
  "create_autopilot_run() got an unexpected keyword argument "
  ++ String.singleton aposChar ++ "profile_snapshot" ++ String.singleton aposChar

/-- The dictionary `EngineGateway.validate_and_execute` returns. -/
structure GatewayResult where
  success : Bool
  run_id : Option ℕ
  summary : Option Summary
  error : Option String
  approved_snapshot_id : String
  deriving Repr, DecidableEq

set_option linter.unusedVariables false in
/-- The body of `EngineGateway.validate_and_execute` after the snapshot
fetch (`artifact_services.py:348-426`), on the fetched snapshot: the
frozen assertion, the all-bullets-verified assertion, job resolution, the
engine invocation and the persistence of its results.  On engine success
the run-record insert raises the `create_autopilot_run` `TypeError`
(see `createRunTypeErrorMsg`), caught by the surrounding `except`. -/
def validate_and_execute_with (db : DB) (snapOpt : Option ArtifactSnapshot) (user_id : ℤ)
    (job_ids : List String) (oracle : ℕ → Bool) : Except String GatewayResult × DB :=
  match snapOpt with
  | none => (.error noSnapshotMsg, db)
  | some snap =>
    if snap.frozen = false then
      (.error "Artifact snapshot must be frozen for engine execution", db)
    else
      match firstUnverifiedBullet snap.student_artifact_pack with
      | some b => (.error (unverifiedBulletMsg b), db)
      | none =>
        let jobs_data := job_ids.filterMap db.get_job_by_id
        if jobs_data.isEmpty then
          (.error "No valid jobs found for execution", db)
        else
          match run_autopilot snap.student_artifact_pack jobs_data oracle with
          | .error e =>
            (.ok { success := false, run_id := none, summary := none,
                   error := some ("Engine execution failed: " ++ e),
                   approved_snapshot_id := snap.id }, db)
          | .ok result =>
            if result.success then
              (.ok { success := false, run_id := none, summary := none,
                     error := some ("Engine execution failed: " ++ createRunTypeErrorMsg),
                     approved_snapshot_id := snap.id }, db)
            else
              (.ok { success := false, run_id := none, summary := none,
                     error := some (result.error.getD "Engine execution failed"),
                     approved_snapshot_id := snap.id }, db)

/-- `EngineGateway.validate_and_execute` (`artifact_services.py:331-426`):
fetch the user's current approved snapshot (an exception while
reconstructing it from storage propagates), then run the gated body. -/
def validate_and_execute (db : DB) (user_id : ℤ) (job_ids : List String)
    (oracle : ℕ → Bool) : Except String GatewayResult × DB :=
  match get_current_approved db user_id with
  | .error e => (.error e, db)
  | .ok snapOpt => validate_and_execute_with db snapOpt user_id job_ids oracle

/-! # Theorems settling the claims -/

/-! ## C6 — match-score formula -/

/-- `l.dedup.toFinset = l.toFinset` for lists. -/
lemma list_toFinset_dedup {α : Type} [DecidableEq α] (l : List α) :
    l.dedup.toFinset = l.toFinset := by
  ext a
  simp [List.mem_dedup]

/-- The intersection count the scorer computes equals the finset
intersection cardinality of the claim. -/
lemma dedup_filter_length_eq_card_inter (req vocab : List String) :
    (req.dedup.filter (fun s => s ∈ vocab)).length =
      (req.toFinset ∩ vocab.toFinset).card := by
  have hnd : (req.dedup.filter (fun s => s ∈ vocab)).Nodup :=
    (List.nodup_dedup req).filter _
  rw [← List.toFinset_card_of_nodup hnd]
  congr 1
  ext a
  simp [List.mem_filter, List.mem_dedup, Finset.mem_inter]

/-- The claim's expression for `skill_overlap`:
`|required_skills ∩ skill_vocab| / |required_skills|` on sets, `1.0` when
the job requires no skills. -/
def skillOverlapSpec (student : StudentArtifactPack) (job : JobListing) : ℚ :=
  if job.required_skills.toFinset = ∅ then 1
  else ((job.required_skills.toFinset ∩ student.skill_vocab.toFinset).card : ℚ) /
    (job.required_skills.toFinset.card : ℚ)

/-- The student of the claim's concrete example: `skill_vocab`
containing exactly `python`. -/
def exStudentC6 : StudentArtifactPack :=
  { source_resume_hash := "hash", skill_vocab := ["python"], education := [],
    projects := [], constraints := none }

/-- The job of the claim's concrete example: `required_skills`
`{python, sql}`, `min_experience_years` 0. -/
def exJobC6 : JobListing :=
  { job_id := "job-6", company := "acme", role := "analyst", location := "remote",
    required_skills := ["python", "sql"], min_experience_years := 0 }

/-- The score of a `score_job_match` result is the clamped weighted sum of
its own components (definitional). -/
lemma score_job_match_score_eq (student : StudentArtifactPack) (job : JobListing) :
    (score_job_match student job).score =
      max 0 (min 1 ((1/2) * (score_job_match student job).skill_overlap
        + (3/10) * (score_job_match student job).experience_fit
        + (1/5) * (score_job_match student job).constraint_match)) := rfl

/-- The concrete score of the claim's example is 0.75. -/
lemma exC6_score_eq : (score_job_match exStudentC6 exJobC6).score = 3/4 := by
  have hd : (["python", "sql"] : List String).dedup = ["python", "sql"] := by decide
  have hf : (["python", "sql"] : List String).filter
      (fun s => s ∈ (["python"] : List String)) = ["python"] := by decide
  simp only [score_job_match, exStudentC6, exJobC6, hd, hf]
  norm_num

/-- C6 (amended): for every student pack and job, `score_job_match`
returns `score = clamp₀₁(0.5·skill_overlap + 0.3·experience_fit +
0.2·constraint_match)` with `skill_overlap = |required ∩ vocab|/|required|`
(1.0 when the job requires no skills), `experience_fit = 1` exactly when
`min_experience_years = 0`, and `constraint_match = 1`; at the claim's
concrete example the score is 0.75 (not 0.85 as the claim stated). -/
theorem C6_score_formula :
    (∀ (student : StudentArtifactPack) (job : JobListing),
      (score_job_match student job).skill_overlap = skillOverlapSpec student job
      ∧ (score_job_match student job).experience_fit =
          (if job.min_experience_years = 0 then (1 : ℚ) else 0)
      ∧ (score_job_match student job).constraint_match = 1
      ∧ (score_job_match student job).score =
          max 0 (min 1 ((1/2) * skillOverlapSpec student job
            + (3/10) * (if job.min_experience_years = 0 then (1 : ℚ) else 0)
            + (1/5) * 1)))
    ∧ (score_job_match exStudentC6 exJobC6).score = 3/4 := by
  constructor
  · intro student job
    have hov : (score_job_match student job).skill_overlap = skillOverlapSpec student job := by
      show (if job.required_skills.dedup.isEmpty then (1 : ℚ)
        else ((job.required_skills.dedup.filter
            (fun s => s ∈ student.skill_vocab)).length : ℚ) /
          (job.required_skills.dedup.length : ℚ)) = skillOverlapSpec student job
      rcases eq_or_ne job.required_skills [] with h | h
      · simp [h, skillOverlapSpec]
      · have hne : job.required_skills.dedup ≠ [] := by
          simpa [List.dedup_eq_nil] using h
        have hfe : job.required_skills.toFinset ≠ ∅ :=
          fun hh => h ((List.toFinset_eq_empty_iff _).mp hh)
        rw [skillOverlapSpec, if_neg hfe,
          if_neg (by simpa [List.isEmpty_iff] using hne),
          dedup_filter_length_eq_card_inter, List.card_toFinset]
    refine ⟨hov, rfl, rfl, ?_⟩
    rw [score_job_match_score_eq, hov]
    rfl
  · exact exC6_score_eq

/-- C6 counterexample: at the claim's own example — `required_skills`
`{python, sql}`, vocab containing `python`, `min_experience_years` 0 —
the code's score is 0.75, which is not the claimed 0.85. -/
theorem C6_counterexample :
    (score_job_match exStudentC6 exJobC6).score = 3/4 ∧ (3/4 : ℚ) ≠ 85/100 :=
  ⟨exC6_score_eq, by norm_num⟩

/-! ## C7 — application content generator -/

/-- The cover paragraph the claim asserts: the template joined over the
descriptions of the CAPPED selection (first 3 relevant bullets). -/
def coverOfCappedSpec (student : StudentArtifactPack) (job : JobListing) : String :=
  "I am applying for the " ++ job.role ++ " position. My background includes "
    ++ String.intercalate ", " (((relevantBullets student job).take 3).map
        (fun b => b.description)) ++ "."

/-- A verified bullet with description `d` and skill `python`, for the C7
counterexample. -/
def pyBullet (d : String) : Bullet :=
  { description := d, skills := ["python"], verified := true, proofs := none }

/-- A student with one project holding four relevant bullets. -/
def exStudentC7 : StudentArtifactPack :=
  { source_resume_hash := "hash", skill_vocab := ["python"], education := [],
    projects := [{ name := "proj", description := "pd", skills := ["python"],
                   bullets := [pyBullet "d1", pyBullet "d2", pyBullet "d3", pyBullet "d4"] }],
    constraints := none }

/-- A job requiring `python`, matching all four bullets. -/
def exJobC7 : JobListing :=
  { job_id := "job-7", company := "acme", role := "dev", location := "remote",
    required_skills := ["python"], min_experience_years := 0 }

/-- C7 counterexample: with four relevant bullets the returned cover
paragraph joins all four descriptions, while the claim's template over the
capped selection joins only the first three — the two differ. -/
theorem C7_counterexample :
    ((generate_application_content exStudentC7 exJobC7).1.map
        (fun c => c.cover_paragraph)) =
      some ("I am applying for the dev position. My background includes d1, d2, d3, d4.")
    ∧ coverOfCappedSpec exStudentC7 exJobC7 =
      "I am applying for the dev position. My background includes d1, d2, d3."
    ∧ ((generate_application_content exStudentC7 exJobC7).1.map
        (fun c => c.cover_paragraph)) ≠ some (coverOfCappedSpec exStudentC7 exJobC7) := by
  refine ⟨by decide, by decide, by decide⟩

/-- C7 (amended): `generate_application_content` returns
`NO_RELEVANT_VERIFIED_BULLETS` and no content exactly when no bullet
across all projects has a skill among the job's required skills;
otherwise it returns at most 3 selected bullets (the first 3 relevant
ones) and a cover paragraph equal to the fixed template joined over the
descriptions of ALL relevant bullets (not just the capped selection). -/
theorem C7_generator (student : StudentArtifactPack) (job : JobListing) :
    (generate_application_content student job = (none, some "NO_RELEVANT_VERIFIED_BULLETS")
      ↔ ∀ p ∈ student.projects, ∀ b ∈ p.bullets, ∀ s ∈ b.skills, s ∉ job.required_skills)
    ∧ (∀ c, (generate_application_content student job).1 = some c →
        c.selected_bullets = (relevantBullets student job).take 3
        ∧ c.selected_bullets.length ≤ 3
        ∧ c.cover_paragraph = "I am applying for the " ++ job.role
            ++ " position. My background includes "
            ++ String.intercalate ", " ((relevantBullets student job).map
                (fun b => b.description)) ++ ".") := by
  have hrel : relevantBullets student job = [] ↔
      ∀ p ∈ student.projects, ∀ b ∈ p.bullets, ∀ s ∈ b.skills, s ∉ job.required_skills := by
    simp [relevantBullets, List.flatMap_eq_nil_iff, List.filter_eq_nil_iff]
  constructor
  · constructor
    · intro h
      rw [← hrel]
      by_contra hne
      have : ¬ (relevantBullets student job).isEmpty := by
        simpa [List.isEmpty_iff] using hne
      simp only [generate_application_content] at h
      rw [if_neg this] at h
      exact absurd (congrArg Prod.fst h) (by simp)
    · intro h
      have he : (relevantBullets student job).isEmpty := by
        simp [List.isEmpty_iff, hrel.mpr h]
      simp [generate_application_content, he]
  · intro c hc
    simp only [generate_application_content] at hc
    by_cases he : (relevantBullets student job).isEmpty
    · rw [if_pos he] at hc
      exact absurd hc (by simp)
    · rw [if_neg he] at hc
      simp only [Option.some.injEq] at hc
      refine ⟨?_, ?_, ?_⟩
      · rw [← hc]
      · rw [← hc]
        simp
      · rw [← hc]

/-- The content the generator returns at the C7 example input. -/
def genContentC7 : AppContent :=
  { selected_bullets := [pyBullet "d1", pyBullet "d2", pyBullet "d3"],
    cover_paragraph :=
      "I am applying for the dev position. My background includes d1, d2, d3, d4.",
    answers := [] }

/-- Witness for C7: the amended theorem applied at the four-bullet
example. -/
theorem C7_witness :
    genContentC7.selected_bullets = (relevantBullets exStudentC7 exJobC7).take 3
    ∧ genContentC7.selected_bullets.length ≤ 3
    ∧ genContentC7.cover_paragraph = "I am applying for the " ++ exJobC7.role
        ++ " position. My background includes "
        ++ String.intercalate ", " ((relevantBullets exStudentC7 exJobC7).map
            (fun b => b.description)) ++ "." :=
  (C7_generator exStudentC7 exJobC7).2 genContentC7 (by decide)

/-! ## C2 — draft/snapshot bullet-verification partition -/

/-- `Except.bind` on an error short-circuits. -/
lemma except_bind_error {α β : Type} (e : String) (f : α → Except String β) :
    (Except.error e : Except String α) >>= f = .error e := rfl

/-- `Except.bind` on a success applies the continuation. -/
lemma except_bind_ok {α β : Type} (a : α) (f : α → Except String β) :
    (Except.ok a : Except String α) >>= f = f a := rfl

/-- The draft validator succeeds exactly on packs with no
`verified: true` bullet. -/
lemma validate_no_verified_bullets_spec (v : PackDict) :
    (((v.projects.getD []).any
        (fun p => (p.bullets.getD []).any (fun b => b.verified.getD false))) = true →
      validate_no_verified_bullets v =
        .error "Draft artifacts cannot contain verified: true bullets")
    ∧ (((v.projects.getD []).any
        (fun p => (p.bullets.getD []).any (fun b => b.verified.getD false))) = false →
      validate_no_verified_bullets v = .ok ()) := by
  unfold validate_no_verified_bullets
  constructor
  · intro h
    rw [if_pos h]
  · intro h
    rw [if_neg (by simp [h])]

/-- The snapshot pack validator fails whenever some bullet is not
verified, and succeeds only when every bullet is verified. -/
lemma validate_pack_structure_spec (v : PackDict) :
    ((((v.projects.getD []).all
        (fun p => (p.bullets.getD []).all (fun b => b.verified.getD false))) = false →
      ∃ e, validate_student_artifact_pack_structure v = .error e))
    ∧ (∀ u, validate_student_artifact_pack_structure v = .ok u →
      ((v.projects.getD []).all
        (fun p => (p.bullets.getD []).all (fun b => b.verified.getD false))) = true) := by
  unfold validate_student_artifact_pack_structure
  constructor
  · intro h
    match hm : firstMissingPackField v with
    | some f => exact ⟨_, rfl⟩
    | none =>
      refine ⟨"All bullets in approved ArtifactSnapshot must be verified: true", ?_⟩
      rw [if_neg (by simp [h])]
  · intro u hu
    match hm : firstMissingPackField v with
    | some f => rw [hm] at hu; exact absurd hu (by simp)
    | none =>
      rw [hm] at hu
      by_cases hall : ((v.projects.getD []).all
          (fun p => (p.bullets.getD []).all (fun b => b.verified.getD false))) = true
      · exact hall
      · rw [if_neg (by simpa using hall)] at hu
        exact absurd hu (by simp)

/-- A failing first validator makes `DraftArtifactPack` construction fail
with its message. -/
lemma mkDraft_error_of_val {pack : PackDict} {status sph e : String}
    (h : validate_no_verified_bullets pack = .error e) :
    mkDraftArtifactPack pack status sph = .error e := by
  unfold mkDraftArtifactPack
  rw [h]
  rfl

/-- A failing pack validator makes `ArtifactSnapshot` construction fail
with its message. -/
lemma mkSnapshot_error_of_val {id : String} {uid : ℤ} {pack : PackDict} {tstamp : ℕ}
    {srh sph : String} {fz : Bool} {meta : MetaDict} {e : String}
    (h : validate_student_artifact_pack_structure pack = .error e) :
    mkArtifactSnapshot id uid pack tstamp srh sph fz meta = .error e := by
  unfold mkArtifactSnapshot
  rw [h]
  rfl

/-- A successful `DraftArtifactPack` construction passed the bullet
validator. -/
lemma mkDraft_ok_val {pack : PackDict} {status sph : String} {d : DraftArtifactPack}
    (h : mkDraftArtifactPack pack status sph = .ok d) :
    validate_no_verified_bullets pack = .ok () := by
  cases hv : validate_no_verified_bullets pack with
  | ok u => cases u; rfl
  | error e =>
    rw [mkDraft_error_of_val hv] at h
    exact absurd h (by simp)

/-- A successful `ArtifactSnapshot` construction passed the pack
validator. -/
lemma mkSnapshot_ok_val {id : String} {uid : ℤ} {pack : PackDict} {tstamp : ℕ}
    {srh sph : String} {fz : Bool} {meta : MetaDict} {snap : ArtifactSnapshot}
    (h : mkArtifactSnapshot id uid pack tstamp srh sph fz meta = .ok snap) :
    validate_student_artifact_pack_structure pack = .ok () := by
  cases hv : validate_student_artifact_pack_structure pack with
  | ok u => cases u; rfl
  | error e =>
    rw [mkSnapshot_error_of_val hv] at h
    exact absurd h (by simp)

/-- C2: constructing a `DraftArtifactPack` fails whenever some bullet of
the wrapped pack has `verified == true`; constructing an
`ArtifactSnapshot` fails whenever some bullet does not have
`verified == true`; and for every wrapped pack holding at least one
bullet, at most one of the two constructions can succeed (whatever the
remaining constructor arguments). -/
theorem C2_partition :
    (∀ (pack : PackDict) (status sph : String),
      (∃ p ∈ pack.projects.getD [], ∃ b ∈ p.bullets.getD [], b.verified.getD false = true) →
      mkDraftArtifactPack pack status sph =
        .error "Draft artifacts cannot contain verified: true bullets")
    ∧ (∀ (id : String) (uid : ℤ) (pack : PackDict) (tstamp : ℕ) (srh sph : String)
        (fz : Bool) (meta : MetaDict),
      (∃ p ∈ pack.projects.getD [], ∃ b ∈ p.bullets.getD [], b.verified.getD false = false) →
      ∃ e, mkArtifactSnapshot id uid pack tstamp srh sph fz meta = .error e)
    ∧ (∀ (pack : PackDict),
      (∃ p ∈ pack.projects.getD [], ∃ b, b ∈ p.bullets.getD []) →
      ∀ (status sph id : String) (uid : ℤ) (tstamp : ℕ) (srh sph2 : String) (fz : Bool)
        (meta : MetaDict),
      ¬((∃ d, mkDraftArtifactPack pack status sph = .ok d)
        ∧ (∃ snap, mkArtifactSnapshot id uid pack tstamp srh sph2 fz meta = .ok snap))) := by
  refine ⟨?_, ?_, ?_⟩
  · intro pack status sph h
    obtain ⟨p, hp, b, hb, hv⟩ := h
    exact mkDraft_error_of_val ((validate_no_verified_bullets_spec pack).1
      (List.any_eq_true.mpr ⟨p, hp, List.any_eq_true.mpr ⟨b, hb, hv⟩⟩))
  · intro id uid pack tstamp srh sph fz meta h
    obtain ⟨p, hp, b, hb, hv⟩ := h
    have hall : ((pack.projects.getD []).all
        (fun p => (p.bullets.getD []).all (fun b => b.verified.getD false))) = false := by
      by_cases hc : ((pack.projects.getD []).all
          (fun p => (p.bullets.getD []).all (fun b => b.verified.getD false))) = true
      · exact absurd (List.all_eq_true.mp (List.all_eq_true.mp hc p hp) b hb) (by simp [hv])
      · simpa using hc
    obtain ⟨e, he⟩ := (validate_pack_structure_spec pack).1 hall
    exact ⟨e, mkSnapshot_error_of_val he⟩
  · intro pack h status sph id uid tstamp srh sph2 fz meta hc
    obtain ⟨⟨d, hd⟩, ⟨snap, hs⟩⟩ := hc
    obtain ⟨p, hp, b, hb⟩ := h
    have hok := mkDraft_ok_val hd
    have hany : ((pack.projects.getD []).any
        (fun p => (p.bullets.getD []).any (fun b => b.verified.getD false))) = false := by
      by_cases hc2 : ((pack.projects.getD []).any
          (fun p => (p.bullets.getD []).any (fun b => b.verified.getD false))) = true
      · rw [(validate_no_verified_bullets_spec pack).1 hc2] at hok
        exact absurd hok (by simp)
      · simpa using hc2
    have hall := (validate_pack_structure_spec pack).2 () (mkSnapshot_ok_val hs)
    have hbt : b.verified.getD false = true :=
      List.all_eq_true.mp (List.all_eq_true.mp hall p hp) b hb
    have htrue : ((pack.projects.getD []).any
        (fun p => (p.bullets.getD []).any (fun b => b.verified.getD false))) = true :=
      List.any_eq_true.mpr ⟨p, hp, List.any_eq_true.mpr ⟨b, hb, hbt⟩⟩
    rw [hany] at htrue
    exact absurd htrue (by simp)

/-- A `verified: true` bullet dictionary. -/
def bulletTrueC2 : BulletDict :=
  { description := some "d", skills := some [], verified := some true, proofs := none }

/-- A `verified: false` bullet dictionary. -/
def bulletFalseC2 : BulletDict :=
  { description := some "d", skills := some [], verified := some false, proofs := none }

/-- A one-bullet project dictionary around a given bullet. -/
def projOfC2 (b : BulletDict) : ProjectDict :=
  { name := some "p", description := some "pd", skills := some [], bullets := some [b] }

/-- A pack whose single bullet is the given one. -/
def packOfC2 (b : BulletDict) : PackDict :=
  { source_resume_hash := some "rh", skill_vocab := some [], education := some [],
    projects := some [projOfC2 b], constraints := none, extras := [] }

/-- Approval metadata with both required keys present. -/
def metaC2 : MetaDict :=
  { user_confirmation := some { bullets_verified := [],
                                accuracy_confirmed := true,
                                confirmation_timestamp := "t" },
    verification_count := some 0, modified_bullets := some [] }

/-- Witness for C2: the three parts applied to packs holding one bullet. -/
theorem C2_witness :
    mkDraftArtifactPack (packOfC2 bulletTrueC2) "DRAFT" "ph" =
      .error "Draft artifacts cannot contain verified: true bullets"
    ∧ (∃ e, mkArtifactSnapshot "s" 1 (packOfC2 bulletFalseC2) 0 "rh" "ph" true metaC2 = .error e)
    ∧ ¬((∃ d, mkDraftArtifactPack (packOfC2 bulletTrueC2) "DRAFT" "ph" = .ok d)
        ∧ (∃ snap, mkArtifactSnapshot "s" 1 (packOfC2 bulletTrueC2) 0 "rh" "ph" true metaC2 =
            .ok snap)) :=
  ⟨C2_partition.1 (packOfC2 bulletTrueC2) "DRAFT" "ph"
      ⟨projOfC2 bulletTrueC2, by decide, bulletTrueC2, by decide, by decide⟩,
    C2_partition.2.1 "s" 1 (packOfC2 bulletFalseC2) 0 "rh" "ph" true metaC2
      ⟨projOfC2 bulletFalseC2, by decide, bulletFalseC2, by decide, by decide⟩,
    C2_partition.2.2 (packOfC2 bulletTrueC2)
      ⟨projOfC2 bulletTrueC2, by decide, bulletTrueC2, by decide⟩
      "DRAFT" "ph" "s" 1 0 "rh" "ph" true metaC2⟩

/-! ## C4 — approval confirmation validation -/

/-- C4: `submit_for_approval` fails with the accuracy error when the
checkbox is unset; fails when the verified-bullet list is empty; and,
with the checkbox set and a non-empty list, fails naming the first
positional draft bullet id missing from the confirmation.  Every such
failure leaves the database (and so the stored snapshots) unchanged and
returns no snapshot. -/
theorem C4_confirmation_validation :
    (∀ (db : DB) (draft : DraftArtifactPack) (conf : UserConfirmation) (uid : ℤ)
        (sid : String) (tstamp : ℕ),
      conf.accuracy_confirmed = false →
      submit_for_approval db draft conf uid sid tstamp =
        (.error "User must confirm accuracy checkbox", db, draft.student_artifact_pack))
    ∧ (∀ (db : DB) (draft : DraftArtifactPack) (conf : UserConfirmation) (uid : ℤ)
        (sid : String) (tstamp : ℕ),
      conf.bullets_verified = [] →
      ∃ e, submit_for_approval db draft conf uid sid tstamp =
        (.error e, db, draft.student_artifact_pack))
    ∧ (∀ (db : DB) (draft : DraftArtifactPack) (conf : UserConfirmation) (uid : ℤ)
        (sid : String) (tstamp : ℕ) (bid : String),
      conf.accuracy_confirmed = true → conf.bullets_verified ≠ [] →
      firstMissingBullet draft conf = some bid →
      submit_for_approval db draft conf uid sid tstamp =
        (.error ("Bullet " ++ bid ++ " not verified by user"), db,
          draft.student_artifact_pack)) := by
  refine ⟨?_, ?_, ?_⟩
  · intro db draft conf uid sid tstamp h
    have hval : validate_user_confirmation conf draft =
        .error "User must confirm accuracy checkbox" := by
      simp [validate_user_confirmation, h]
    simp [submit_for_approval, hval]
  · intro db draft conf uid sid tstamp h
    by_cases ha : conf.accuracy_confirmed = false
    · exact ⟨"User must confirm accuracy checkbox", by
        have hval : validate_user_confirmation conf draft =
            .error "User must confirm accuracy checkbox" := by
          simp [validate_user_confirmation, ha]
        simp [submit_for_approval, hval]⟩
    · refine ⟨"User must verify at least one bullet", ?_⟩
      have hval : validate_user_confirmation conf draft =
          .error "User must verify at least one bullet" := by
        simp [validate_user_confirmation, ha, h]
      simp [submit_for_approval, hval]
  · intro db draft conf uid sid tstamp bid ha hne hm
    have hval : validate_user_confirmation conf draft =
        .error ("Bullet " ++ bid ++ " not verified by user") := by
      simp [validate_user_confirmation, ha, hne, hm]
    simp [submit_for_approval, hval]

/-- `natStr` at 0. -/
lemma natStr_zero : natStr 0 = "0" := rfl

/-- `natStr` at 1. -/
lemma natStr_one : natStr 1 = "1" := by
  have h : Nat.digits 10 1 = [1] := by norm_num
  simp [natStr, h]
  decide

/-- The draft pack of the spec's C4 example: one project with two
unverified bullets, positional ids `project_0_bullet_0` and
`project_0_bullet_1`. -/
def packC4 : PackDict :=
  { source_resume_hash := some "rh", skill_vocab := some [], education := some [],
    projects := some [{ name := some "p", description := some "pd", skills := some [],
                        bullets := some [{ description := some "b0", skills := some [],
                                           verified := some false, proofs := none },
                                         { description := some "b1", skills := some [],
                                           verified := some false, proofs := none }] }],
    constraints := none, extras := [] }

/-- The C4 example draft. -/
def draftC4 : DraftArtifactPack :=
  { student_artifact_pack := packC4, status := "DRAFT", source_profile_hash := "ph" }

/-- The C4 example confirmation: only `project_0_bullet_0` is listed. -/
def confC4 : UserConfirmation :=
  { bullets_verified := [{ bullet_id := "project_0_bullet_0", verified := true,
                           user_modified := none }],
    accuracy_confirmed := true, confirmation_timestamp := "t" }

/-- The missing bullet of the C4 example is `project_0_bullet_1`. -/
lemma firstMissing_C4 : firstMissingBullet draftC4 confC4 = some "project_0_bullet_1" := by
  simp [firstMissingBullet, extract_bullets_from_draft, draftC4, packC4, confC4,
    natStr_zero, natStr_one, List.enum, List.enumFrom, List.find?]

/-- The empty database. -/
def emptyDB : DB := { jobs := [], snapshots := [], drafts := [], runs := [], history := [] }

/-- Witness for C4: the three validations applied at concrete inputs —
in particular the spec's example, where the confirmation omits
`project_0_bullet_1` and the approval fails naming it. -/
theorem C4_witness :
    (submit_for_approval emptyDB draftC4
        { confC4 with accuracy_confirmed := false } 1 "snap" 0 =
      (.error "User must confirm accuracy checkbox", emptyDB, packC4))
    ∧ (∃ e,
      submit_for_approval emptyDB draftC4 { confC4 with bullets_verified := [] } 1 "snap" 0 =
        (.error e, emptyDB, packC4))
    ∧ (submit_for_approval emptyDB draftC4 confC4 1 "snap" 0 =
        (.error ("Bullet " ++ "project_0_bullet_1" ++ " not verified by user"), emptyDB,
          packC4)) :=
  ⟨C4_confirmation_validation.1 emptyDB draftC4
      { confC4 with accuracy_confirmed := false } 1 "snap" 0 rfl,
    C4_confirmation_validation.2.1 emptyDB draftC4
      { confC4 with bullets_verified := [] } 1 "snap" 0 rfl,
    C4_confirmation_validation.2.2 emptyDB draftC4 confC4 1 "snap" 0
      "project_0_bullet_1" rfl (by decide) firstMissing_C4⟩

/-! ## C5 — approval mutates the draft through the shallow copy -/

/-- The bullet dictionary at project `i`, bullet `j` of a pack. -/
def packBullet (pack : PackDict) (i j : ℕ) : Option BulletDict :=
  ((pack.projects.getD [])[i]?).bind (fun p => (p.bullets.getD [])[j]?)

/-- After a `submit_for_approval` call whose confirmation validation
passed, the caller's draft pack holds the applied pack (the value
`_apply_user_verifications` produced by mutating the shared project and
bullet dictionaries in place). -/
lemma submit_for_approval_after (db : DB) (draft : DraftArtifactPack)
    (conf : UserConfirmation) (uid : ℤ) (sid : String) (tstamp : ℕ)
    (hval : validate_user_confirmation conf draft = .ok ()) :
    (submit_for_approval db draft conf uid sid tstamp).2.2 =
      apply_user_verifications draft.student_artifact_pack conf := by
  unfold submit_for_approval
  rw [hval]
  dsimp only
  cases hs : (apply_user_verifications draft.student_artifact_pack conf).source_resume_hash with
  | none => rfl
  | some srh =>
    cases hm : mkArtifactSnapshot sid uid
        (apply_user_verifications draft.student_artifact_pack conf) tstamp srh
        draft.source_profile_hash true
        { user_confirmation := some conf,
          verification_count := some conf.bullets_verified.length,
          modified_bullets := some ((conf.bullets_verified.filter
            (fun bv => bv.user_modified.getD false)).map (fun bv => bv.bullet_id)) } with
    | error e => simp [hs, hm]
    | ok snap => simp [hs, hm]

/-- C5 (amended): `submit_for_approval` applies the confirmation's
verified flags onto a SHALLOW copy of the draft's wrapped pack — the
top-level mapping is fresh but the project and bullet dictionaries are
shared with the draft, so after any call whose confirmation validation
passes the draft's pack holds the applied value: every top-level field
other than `projects` is unchanged, and the bullet at position `(i, j)`
carries `verified` equal to the confirmation's flag for
`project_i_bullet_j` (`false` when that id was not confirmed) with all
its other keys unchanged.  The draft passed in is therefore NOT unchanged
whenever some applied flag differs from the stored one. -/
theorem C5_shallow_copy_mutation (db : DB) (draft : DraftArtifactPack)
    (conf : UserConfirmation) (uid : ℤ) (sid : String) (tstamp : ℕ)
    (hval : validate_user_confirmation conf draft = .ok ()) :
    (submit_for_approval db draft conf uid sid tstamp).2.2 =
      apply_user_verifications draft.student_artifact_pack conf
    ∧ (apply_user_verifications draft.student_artifact_pack conf).source_resume_hash =
        draft.student_artifact_pack.source_resume_hash
    ∧ (apply_user_verifications draft.student_artifact_pack conf).skill_vocab =
        draft.student_artifact_pack.skill_vocab
    ∧ (apply_user_verifications draft.student_artifact_pack conf).education =
        draft.student_artifact_pack.education
    ∧ (apply_user_verifications draft.student_artifact_pack conf).constraints =
        draft.student_artifact_pack.constraints
    ∧ (apply_user_verifications draft.student_artifact_pack conf).extras =
        draft.student_artifact_pack.extras
    ∧ (∀ (i j : ℕ) (b : BulletDict),
        packBullet draft.student_artifact_pack i j = some b →
        packBullet (apply_user_verifications draft.student_artifact_pack conf) i j =
          some { b with verified := some ((lookupVerified conf
            ("project_" ++ natStr i ++ "_bullet_" ++ natStr j)).getD false) }) := by
  refine ⟨submit_for_approval_after db draft conf uid sid tstamp hval, ?_, ?_, ?_, ?_, ?_, ?_⟩
  · cases hp : draft.student_artifact_pack.projects <;>
      simp [apply_user_verifications, hp]
  · cases hp : draft.student_artifact_pack.projects <;>
      simp [apply_user_verifications, hp]
  · cases hp : draft.student_artifact_pack.projects <;>
      simp [apply_user_verifications, hp]
  · cases hp : draft.student_artifact_pack.projects <;>
      simp [apply_user_verifications, hp]
  · cases hp : draft.student_artifact_pack.projects <;>
      simp [apply_user_verifications, hp]
  · intro i j b hb
    cases hp : draft.student_artifact_pack.projects with
    | none => simp [packBullet, hp] at hb
    | some ps =>
      rw [packBullet, hp] at hb
      simp only [Option.getD_some] at hb
      cases hip : ps[i]? with
      | none => simp [hip] at hb
      | some p =>
        rw [hip] at hb
        simp only [Option.some_bind] at hb
        cases hbs : p.bullets with
        | none => rw [hbs] at hb; simp at hb
        | some bs =>
          rw [hbs] at hb
          simp only [Option.getD_some] at hb
          have hproj : (applyProjects conf ps)[i]? =
              some { p with bullets := some (bs.enum.map (fun jb =>
                { jb.2 with verified := some ((lookupVerified conf
                    ("project_" ++ natStr i ++ "_bullet_" ++ natStr jb.1)).getD false) })) } := by
            simp [applyProjects, List.getElem?_map, List.getElem?_enum, hip, hbs]
          rw [packBullet, apply_user_verifications, hp]
          simp only [Option.getD_some, hproj, Option.some_bind]
          simp [List.getElem?_map, List.getElem?_enum, hb]

/-- The C5 confirmation: the single draft bullet confirmed `true`. -/
def confC5 : UserConfirmation :=
  { bullets_verified := [{ bullet_id := "project_0_bullet_0", verified := true,
                           user_modified := none }],
    accuracy_confirmed := true, confirmation_timestamp := "t" }

/-- The C5 draft: one project, one unverified bullet. -/
def draftC5 : DraftArtifactPack :=
  { student_artifact_pack := packOfC2 bulletFalseC2, status := "DRAFT",
    source_profile_hash := "ph" }

/-- The C5 confirmation validation passes. -/
lemma hvalC5 : validate_user_confirmation confC5 draftC5 = .ok () := by
  simp [validate_user_confirmation, confC5, draftC5, firstMissingBullet,
    extract_bullets_from_draft, packOfC2, projOfC2, bulletFalseC2, natStr_zero,
    List.enum, List.enumFrom, List.find?]

/-- Applying the C5 confirmation turns the draft's bullet verified. -/
lemma happC5 : apply_user_verifications (packOfC2 bulletFalseC2) confC5 =
    packOfC2 bulletTrueC2 := by
  simp [apply_user_verifications, applyProjects, packOfC2, projOfC2, bulletFalseC2,
    bulletTrueC2, lookupVerified, confC5, natStr_zero, List.enum, List.enumFrom,
    List.find?]

/-- C5 counterexample: after a successful-validation call on a draft whose
single bullet is unverified, with a confirmation marking it verified, the
draft's wrapped pack is NOT the pack that was passed in — its bullet now
carries `verified: true`. -/
theorem C5_counterexample :
    (submit_for_approval emptyDB draftC5 confC5 1 "snap" 0).2.2 ≠
      draftC5.student_artifact_pack
    ∧ (submit_for_approval emptyDB draftC5 confC5 1 "snap" 0).2.2 =
      packOfC2 bulletTrueC2 := by
  have h := submit_for_approval_after emptyDB draftC5 confC5 1 "snap" 0 hvalC5
  have hd : draftC5.student_artifact_pack = packOfC2 bulletFalseC2 := rfl
  rw [hd] at h
  rw [h, happC5, hd]
  exact ⟨by decide, rfl⟩

/-- Witness for C5: the amended theorem applied at the concrete draft and
confirmation. -/
theorem C5_witness :
    (submit_for_approval emptyDB draftC5 confC5 1 "snap" 0).2.2 =
      apply_user_verifications draftC5.student_artifact_pack confC5
    ∧ packBullet (apply_user_verifications draftC5.student_artifact_pack confC5) 0 0 =
        some { bulletFalseC2 with verified := some ((lookupVerified confC5
          ("project_" ++ natStr 0 ++ "_bullet_" ++ natStr 0)).getD false) } :=
  ⟨(C5_shallow_copy_mutation emptyDB draftC5 confC5 1 "snap" 0 hvalC5).1,
    (C5_shallow_copy_mutation emptyDB draftC5 confC5 1 "snap" 0 hvalC5).2.2.2.2.2.2
      0 0 bulletFalseC2 (by decide)⟩

/-! ## C1 — gateway refuses unapproved / unfrozen / unverified state -/

/-- An unverified bullet in the pack makes the snapshot pack validator
fail. -/
lemma pack_validator_fails_of_unverified {pack : PackDict} {b : BulletDict}
    (h : firstUnverifiedBullet pack = some b) :
    ∃ e, validate_student_artifact_pack_structure pack = .error e := by
  have hpred := List.find?_some h
  have hmem := List.mem_of_find?_eq_some h
  rcases List.mem_flatMap.mp hmem with ⟨p, hp, hbp⟩
  have hbf : b.verified.getD false = false := by simpa using hpred
  apply (validate_pack_structure_spec pack).1
  by_cases hc : ((pack.projects.getD []).all
      (fun p => (p.bullets.getD []).all (fun b => b.verified.getD false))) = true
  · exact absurd (List.all_eq_true.mp (List.all_eq_true.mp hc p hp) b hbp) (by simp [hbf])
  · simpa using hc

/-- C1: `validate_and_execute` raises — and leaves the database, hence
the `autopilot_runs` table, unchanged — when the user has no stored
snapshot (with the approval-workflow message); when the snapshot object
reaching the gateway has `frozen = false` (the gateway's frozen
assertion); when the snapshot object reaching the gateway contains an
unverified bullet (naming the first unverified bullet's description); and
when the STORED pack holds an unverified bullet, in which case the
snapshot reconstruction inside `get_current_approved` already raises. -/
theorem C1_gateway_precondition_failures :
    (∀ (db : DB) (uid : ℤ) (jids : List String) (oracle : ℕ → Bool),
      db.get_current_artifact_snapshot uid = none →
      validate_and_execute db uid jids oracle = (.error noSnapshotMsg, db))
    ∧ (∀ (db : DB) (snap : ArtifactSnapshot) (uid : ℤ) (jids : List String)
        (oracle : ℕ → Bool),
      snap.frozen = false →
      validate_and_execute_with db (some snap) uid jids oracle =
        (.error "Artifact snapshot must be frozen for engine execution", db))
    ∧ (∀ (db : DB) (snap : ArtifactSnapshot) (uid : ℤ) (jids : List String)
        (oracle : ℕ → Bool) (b : BulletDict),
      snap.frozen = true →
      firstUnverifiedBullet snap.student_artifact_pack = some b →
      validate_and_execute_with db (some snap) uid jids oracle =
        (.error (unverifiedBulletMsg b), db))
    ∧ (∀ (db : DB) (uid : ℤ) (jids : List String) (oracle : ℕ → Bool)
        (row : SnapshotRow),
      db.get_current_artifact_snapshot uid = some row →
      firstUnverifiedBullet row.student_artifact_pack ≠ none →
      ∃ e, validate_and_execute db uid jids oracle = (.error e, db)) := by
  refine ⟨?_, ?_, ?_, ?_⟩
  · intro db uid jids oracle h
    simp [validate_and_execute, get_current_approved, h, validate_and_execute_with]
  · intro db snap uid jids oracle h
    simp [validate_and_execute_with, h]
  · intro db snap uid jids oracle b hf hb
    simp [validate_and_execute_with, hf, hb]
  · intro db uid jids oracle row hrow hb
    rcases Option.ne_none_iff_exists.mp hb with ⟨b, hbeq⟩
    obtain ⟨e, he⟩ := pack_validator_fails_of_unverified hbeq.symm
    refine ⟨e, ?_⟩
    have hsnap : mkArtifactSnapshot row.id row.user_id row.student_artifact_pack
        row.approved_at row.source_resume_hash row.source_profile_hash true
        row.approval_metadata = .error e := mkSnapshot_error_of_val he
    simp [validate_and_execute, get_current_approved, hrow, hsnap, Except.map]

/-- A snapshot object with `frozen = false` (as only out-of-band mutation
could produce). -/
def snapNotFrozenC1 : ArtifactSnapshot :=
  { id := "s1", user_id := 1, student_artifact_pack := packOfC2 bulletTrueC2,
    approved_at := 0, source_resume_hash := "rh", source_profile_hash := "ph",
    frozen := false, approval_metadata := metaC2 }

/-- A frozen snapshot object whose pack holds an unverified bullet. -/
def snapUnverifiedC1 : ArtifactSnapshot :=
  { id := "s1", user_id := 1, student_artifact_pack := packOfC2 bulletFalseC2,
    approved_at := 0, source_resume_hash := "rh", source_profile_hash := "ph",
    frozen := true, approval_metadata := metaC2 }

/-- A stored snapshot row whose pack was corrupted to hold an unverified
bullet. -/
def rowC1 : SnapshotRow :=
  { id := "s1", user_id := 1, student_artifact_pack := packOfC2 bulletFalseC2,
    approved_at := 0, source_resume_hash := "rh", source_profile_hash := "ph",
    approval_metadata := metaC2, integrity_hash := "x" }

/-- A database holding only the corrupted row. -/
def dbC1 : DB := { emptyDB with snapshots := [rowC1] }

/-- Witness for C1: the four failure modes at concrete states. -/
theorem C1_witness :
    validate_and_execute emptyDB 1 ["j"] (fun _ => false) = (.error noSnapshotMsg, emptyDB)
    ∧ validate_and_execute_with emptyDB (some snapNotFrozenC1) 1 ["j"] (fun _ => false) =
        (.error "Artifact snapshot must be frozen for engine execution", emptyDB)
    ∧ validate_and_execute_with emptyDB (some snapUnverifiedC1) 1 ["j"] (fun _ => false) =
        (.error (unverifiedBulletMsg bulletFalseC2), emptyDB)
    ∧ (∃ e, validate_and_execute dbC1 1 ["j"] (fun _ => false) = (.error e, dbC1)) :=
  ⟨C1_gateway_precondition_failures.1 emptyDB 1 ["j"] (fun _ => false) rfl,
    C1_gateway_precondition_failures.2.1 emptyDB snapNotFrozenC1 1 ["j"] (fun _ => false) rfl,
    C1_gateway_precondition_failures.2.2.1 emptyDB snapUnverifiedC1 1 ["j"] (fun _ => false)
      bulletFalseC2 rfl (by decide),
    C1_gateway_precondition_failures.2.2.2 dbC1 1 ["j"] (fun _ => false) rowC1
      (by decide) (by decide)⟩

/-! ## C8 — exactly one retry, with the recorded failure reason -/

/-- C8: for the fully-populated application the engine composes, when the
first portal call raises (oracle `true`), `submitWithRetry` — the
submission step of the engine loop — makes exactly one more portal call
(two attempts in total); on retry success the outcome is `retried` with
the NEW receipt id `sandbox-(c+1)` (the failed first call did not consume
a counter value); on retry failure the outcome is `failed` with reason
`"Submission failed twice: {e2}"`, a string that contains the message of
each of the two raised errors (inside the engine both are the portal's
random-rejection message, so the reason indeed includes both). -/
theorem C8_submission_retry (c : ℕ) (o2 : Bool) (jid sid : String) (content : AppContent) :
    submit_application c true (engineApp jid sid content) = .error randomRejectMsg
    ∧ (submitWithRetry c true o2 (engineApp jid sid content)).attempts = 2
    ∧ (o2 = false → submitWithRetry c true o2 (engineApp jid sid content) =
        { status := .retried, reason := none,
          receipt_id := some ("sandbox-" ++ pad6 (c + 1)), counter := c + 1, attempts := 2 })
    ∧ (o2 = true → ∃ e1 e2,
        submit_application c true (engineApp jid sid content) = .error e1
        ∧ submit_application c o2 (engineApp jid sid content) = .error e2
        ∧ submitWithRetry c true o2 (engineApp jid sid content) =
            { status := .failed, reason := some ("Submission failed twice: " ++ e2),
              receipt_id := none, counter := c, attempts := 2 }
        ∧ (∃ pre post, "Submission failed twice: " ++ e2 = pre ++ e1 ++ post)
        ∧ (∃ pre post, "Submission failed twice: " ++ e2 = pre ++ e2 ++ post)) := by
  refine ⟨rfl, ?_, ?_, ?_⟩
  · cases o2 <;> rfl
  · intro h
    subst h
    rfl
  · intro h
    subst h
    exact ⟨randomRejectMsg, randomRejectMsg, rfl, rfl, rfl,
      ⟨"Submission failed twice: ", "", by simp⟩,
      ⟨"Submission failed twice: ", "", by simp⟩⟩

/-- The content of the C8 witness application. -/
def contentC8 : AppContent :=
  { selected_bullets := [], cover_paragraph := "cp", answers := [] }

/-- Witness for C8: the theorem applied at a fresh portal, for a
succeeding and for a failing retry. -/
theorem C8_witness :
    (submitWithRetry 0 true false (engineApp "j" "s" contentC8)).attempts = 2
    ∧ submitWithRetry 0 true false (engineApp "j" "s" contentC8) =
        { status := .retried, reason := none,
          receipt_id := some ("sandbox-" ++ pad6 1), counter := 1, attempts := 2 }
    ∧ (∃ e1 e2,
        submit_application 0 true (engineApp "j" "s" contentC8) = .error e1
        ∧ submit_application 0 true (engineApp "j" "s" contentC8) = .error e2
        ∧ submitWithRetry 0 true true (engineApp "j" "s" contentC8) =
            { status := .failed, reason := some ("Submission failed twice: " ++ e2),
              receipt_id := none, counter := 0, attempts := 2 }
        ∧ (∃ pre post, "Submission failed twice: " ++ e2 = pre ++ e1 ++ post)
        ∧ (∃ pre post, "Submission failed twice: " ++ e2 = pre ++ e2 ++ post)) :=
  ⟨(C8_submission_retry 0 false "j" "s" contentC8).2.1,
    (C8_submission_retry 0 false "j" "s" contentC8).2.2.1 rfl,
    (C8_submission_retry 0 true "j" "s" contentC8).2.2.2 rfl⟩

/-! ## C9 — sandbox receipt-id discipline -/

/-- `String.mk` length. -/
lemma string_length_mk (l : List Char) : (String.mk l).length = l.length := rfl

/-- The padded receipt numeral has length `max 6 (digit count)`. -/
lemma pad6_length (n : ℕ) : (pad6 n).length = max 6 (Nat.digits 10 n).length := by
  simp [pad6, string_length_mk]
  omega

/-- Numbers up to 999999 have at most six decimal digits. -/
lemma digits_len_le_six {n : ℕ} (h : n ≤ 999999) : (Nat.digits 10 n).length ≤ 6 := by
  rcases eq_or_ne n 0 with h0 | h0
  · simp [h0]
  · rw [Nat.digits_len 10 n (by norm_num) h0]
    have hlt : n < 10 ^ 6 := by omega
    have := (Nat.lt_pow_iff_log_lt (by norm_num : 1 < 10) h0).mp hlt
    omega

/-- Appending to a common prefix is injective on strings. -/
lemma string_append_left_cancel {s a b : String} (h : s ++ a = s ++ b) : a = b := by
  have hd : (s ++ a).data = (s ++ b).data := congrArg String.data h
  rw [String.data_append, String.data_append] at hd
  have := List.append_cancel_left hd
  cases a
  cases b
  exact congrArg String.mk this

/-- A successful portal call returns exactly the next counter's receipt. -/
lemma submit_application_ok {c : ℕ} {f : Bool} {a : AppDict} {rc : String × ℕ}
    (h : submit_application c f a = .ok rc) : rc = ("sandbox-" ++ pad6 (c + 1), c + 1) := by
  unfold submit_application at h
  split at h
  · exact absurd h (by simp)
  · split at h
    · exact absurd h (by simp)
    · injection h with h
      exact h.symm

/-- `successReceipts` keeps a successful head. -/
lemma successReceipts_cons_ok (r : String) (rs : List (Except String String)) :
    successReceipts (.ok r :: rs) = r :: successReceipts rs := rfl

/-- `successReceipts` drops a failed head. -/
lemma successReceipts_cons_error (e : String) (rs : List (Except String String)) :
    successReceipts (.error e :: rs) = successReceipts rs := rfl

/-- Receipts of a portal trace: the counter never decreases, and the
successful receipts are exactly `sandbox-` followed by the consecutive
padded numerals `c+1, c+2, …` — one per success. -/
lemma runPortal_spec : ∀ (calls : List (AppDict × Bool)) (c : ℕ),
    c ≤ (runPortal c calls).2
    ∧ successReceipts (runPortal c calls).1 =
        (List.range' (c + 1) ((runPortal c calls).2 - c)).map
          (fun n => "sandbox-" ++ pad6 n) := by
  intro calls
  induction calls with
  | nil => intro c; simp [runPortal, successReceipts]
  | cons af rest ih =>
    intro c
    obtain ⟨a, f⟩ := af
    cases hsub : submit_application c f a with
    | ok rc =>
      have hrc := submit_application_ok hsub
      subst hrc
      have h1 : runPortal c ((a, f) :: rest) =
          ((Except.ok ("sandbox-" ++ pad6 (c + 1)) :: (runPortal (c + 1) rest).1),
            (runPortal (c + 1) rest).2) := by
        simp [runPortal, hsub]
      obtain ⟨ihle, ihr⟩ := ih (c + 1)
      rw [h1]
      refine ⟨by omega, ?_⟩
      have hk : (runPortal (c + 1) rest).2 - c =
          ((runPortal (c + 1) rest).2 - (c + 1)) + 1 := by omega
      rw [successReceipts_cons_ok, ihr, hk, List.range'_succ, List.map_cons]
    | error e =>
      have h1 : runPortal c ((a, f) :: rest) =
          ((Except.error e :: (runPortal c rest).1), (runPortal c rest).2) := by
        simp [runPortal, hsub]
      obtain ⟨ihle, ihr⟩ := ih c
      rw [h1]
      exact ⟨ihle, by rw [successReceipts_cons_error, ihr]⟩

/-- The content of the C9 example applications. -/
def contentC9 : AppContent :=
  { selected_bullets := [], cover_paragraph := "cp", answers := [] }

/-- A complete application that always passes the portal's field check. -/
def okAppC9 : AppDict :=
  { job_id := some "j9", student_id := some "s9", content := some contentC9 }

/-- After `n` straight successes from counter `c`, the trace contains the
receipt numbered `c + n`. -/
lemma runPortal_replicate_mem : ∀ (n c : ℕ), 0 < n →
    Except.ok ("sandbox-" ++ pad6 (c + n)) ∈
      (runPortal c (List.replicate n (okAppC9, false))).1 := by
  intro n
  induction n with
  | zero => intro c h; exact absurd h (by simp)
  | succ m ih =>
    intro c _
    have hsub : submit_application c false okAppC9 =
        .ok ("sandbox-" ++ pad6 (c + 1), c + 1) := rfl
    have h1 : runPortal c (List.replicate (m + 1) (okAppC9, false)) =
        ((Except.ok ("sandbox-" ++ pad6 (c + 1)) ::
          (runPortal (c + 1) (List.replicate m (okAppC9, false))).1),
          (runPortal (c + 1) (List.replicate m (okAppC9, false))).2) := by
      rw [List.replicate_succ]
      simp [runPortal, hsub]
    rw [h1]
    rcases Nat.eq_zero_or_pos m with hm | hm
    · subst hm
      simp
    · have := ih (c + 1) hm
      have harith : c + 1 + m = c + (m + 1) := by omega
      rw [harith] at this
      exact List.mem_cons_of_mem _ this

/-- The millionth receipt numeral. -/
lemma pad6_million : pad6 1000000 = "1000000" := by
  have hd : Nat.digits 10 1000000 = [0, 0, 0, 0, 0, 0, 1] := by norm_num
  simp [pad6, hd]
  decide

/-- The millionth success of one portal instance is in its trace. -/
lemma hmemC9 : Except.ok ("sandbox-" ++ pad6 1000000) ∈
    (runPortal 0 (List.replicate 1000000 (okAppC9, false))).1 := by
  have h := runPortal_replicate_mem 1000000 0 (by norm_num)
  rw [Nat.zero_add] at h
  exact h

/-- C9 counterexample: after one million straight successes the portal
issues `sandbox-1000000`, whose numeral has seven digits — so receipts
are not always 6-digit zero-padded, refuting the claim's universal
6-digit assertion. -/
theorem C9_counterexample :
    pad6 1000000 = "1000000"
    ∧ ("1000000" : String).length = 7
    ∧ Except.ok ("sandbox-" ++ pad6 1000000) ∈
        (runPortal 0 (List.replicate 1000000 (okAppC9, false))).1
    ∧ ¬ (∀ (calls : List (AppDict × Bool)) (r : String),
          Except.ok r ∈ (runPortal 0 calls).1 →
          ∃ ds : String, r = "sandbox-" ++ ds ∧ ds.length = 6) := by
  refine ⟨pad6_million, by decide, hmemC9, ?_⟩
  intro h
  obtain ⟨ds, hds, hlen⟩ := h _ _ hmemC9
  have hd : ds = pad6 1000000 := (string_append_left_cancel hds).symm
  rw [hd, pad6_million] at hlen
  exact absurd hlen (by decide)

/-- C9 (amended): `submit_application` fails naming the missing field(s)
when the application lacks any of `job_id`, `student_id`, `content`, and
fails with the random-rejection message without touching the counter on
the random-failure path; each success returns `sandbox-` followed by the
incremented counter zero-padded to AT LEAST six digits (exactly six while
the counter is below 10^6 — the padding widens from the millionth success
on); across any trace of one instance the successful receipts are the
consecutive numerals starting at `sandbox-000001`, so they are strictly
increasing and the counter is incremented only by success-path calls. -/
theorem C9_receipt_discipline :
    (∀ (c : ℕ) (f : Bool) (a : AppDict), missingFields a ≠ [] →
      submit_application c f a =
        .error ("Missing required application field(s): " ++ pyListRepr (missingFields a)))
    ∧ (∀ (c : ℕ) (a : AppDict), missingFields a = [] →
      submit_application c true a = .error randomRejectMsg)
    ∧ (∀ (c : ℕ) (a : AppDict), missingFields a = [] →
      submit_application c false a = .ok ("sandbox-" ++ pad6 (c + 1), c + 1))
    ∧ (∀ calls : List (AppDict × Bool),
      successReceipts (runPortal 0 calls).1 =
        (List.range' 1 (runPortal 0 calls).2).map (fun n => "sandbox-" ++ pad6 n))
    ∧ (∀ n : ℕ, n ≤ 999999 → (pad6 n).length = 6)
    ∧ (∀ n : ℕ, 6 ≤ (pad6 n).length) := by
  refine ⟨?_, ?_, ?_, ?_, ?_, ?_⟩
  · intro c f a h
    simp [submit_application, h]
  · intro c a h
    simp [submit_application, h]
  · intro c a h
    simp [submit_application, h]
  · intro calls
    have h := (runPortal_spec calls 0).2
    simpa using h
  · intro n h
    rw [pad6_length]
    have := digits_len_le_six h
    omega
  · intro n
    rw [pad6_length]
    omega

/-- Witness for C9: the portal behaviours at concrete calls. -/
theorem C9_witness :
    submit_application 3 false { job_id := none, student_id := some "s9", content := none } =
      .error ("Missing required application field(s): "
        ++ pyListRepr (missingFields
            { job_id := none, student_id := some "s9", content := none }))
    ∧ submit_application 3 true okAppC9 = .error randomRejectMsg
    ∧ submit_application 3 false okAppC9 = .ok ("sandbox-" ++ pad6 (3 + 1), 3 + 1)
    ∧ (pad6 1).length = 6 :=
  ⟨C9_receipt_discipline.1 3 false
      { job_id := none, student_id := some "s9", content := none } (by decide),
    C9_receipt_discipline.2.1 3 okAppC9 rfl,
    C9_receipt_discipline.2.2.1 3 okAppC9 rfl,
    C9_receipt_discipline.2.2.2.2.1 1 (by norm_num)⟩

/-! ## C10 — every queued job reaches exactly one terminal outcome -/

/-- One engine-loop iteration increments `queued` by one and exactly one
of `skipped`/`submitted`/`retried`/`failed` by one. -/
lemma processJob_counts {student : StudentArtifactPack} {oracle : ℕ → Bool} {s : EngState}
    {job : JobListing} {s1 : EngState} (h : processJob student oracle s job = .ok s1) :
    s1.queued = s.queued + 1
    ∧ s1.skipped + s1.submitted + s1.retried + s1.failed =
        s.skipped + s.submitted + s.retried + s.failed + 1 := by
  unfold processJob at h
  dsimp only at h
  split at h
  · injection h with h
    subst h
    exact ⟨by simp, by simp; omega⟩
  · split at h
    · exact absurd h (by simp)
    · split at h
      · injection h with h
        subst h
        exact ⟨by simp, by simp; omega⟩
      · split at h
        · injection h with h
          subst h
          exact ⟨by simp, by simp; omega⟩
        · rename_i content snd hgen
          injection h with h
          subst h
          refine ⟨by simp, ?_⟩
          cases hst : (submitWithRetry s.portal (oracle s.oidx) (oracle (s.oidx + 1))
              (engineApp job.job_id student.source_resume_hash content)).status <;>
            simp [hst] <;> omega

/-- Folding the engine loop over a job list adds the list's length to
`queued` and distributes it over the four terminal counters. -/
lemma foldlM_processJob_counts {student : StudentArtifactPack} {oracle : ℕ → Bool} :
    ∀ (jobs : List JobListing) (s s1 : EngState),
      List.foldlM (processJob student oracle) s jobs = .ok s1 →
      s1.queued = s.queued + jobs.length
      ∧ s1.skipped + s1.submitted + s1.retried + s1.failed =
          s.skipped + s.submitted + s.retried + s.failed + jobs.length := by
  intro jobs
  induction jobs with
  | nil =>
    intro s s1 h
    simp only [List.foldlM_nil] at h
    injection h with h
    subst h
    exact ⟨by simp, by simp⟩
  | cons job rest ih =>
    intro s s1 h
    rw [List.foldlM_cons] at h
    cases hp : processJob student oracle s job with
    | error e => rw [hp] at h; exact absurd h (by simp [except_bind_error])
    | ok s2 =>
      rw [hp, except_bind_ok] at h
      obtain ⟨h1, h2⟩ := processJob_counts hp
      obtain ⟨h3, h4⟩ := ih s2 s1 h
      exact ⟨by simp [h3, h1]; omega, by simp at h4 ⊢; omega⟩

/-- A successful job-list validation preserves the list's length. -/
lemma parseJobs_length : ∀ (idx : ℕ) (l : List JobDict) (js : List JobListing),
    parseJobs idx l = .ok js → js.length = l.length := by
  intro idx l
  induction l generalizing idx with
  | nil => intro js h; injection h with h; subst h; rfl
  | cons j rest ih =>
    intro js h
    unfold parseJobs at h
    cases hp : parseJobListing j with
    | error e => rw [hp] at h; exact absurd h (by simp)
    | ok job =>
      rw [hp] at h
      cases hr : parseJobs (idx + 1) rest with
      | error e => rw [hr] at h; exact absurd h (by simp [Except.map])
      | ok js2 =>
        rw [hr] at h
        simp only [Except.map] at h
        injection h with h
        subst h
        simp [ih (idx + 1) js2 hr]

/-- C10: whenever `run_autopilot` returns with `success = true`, the
summary's `queued` count equals the number of input job listings and
equals `skipped + submitted + retried + failed` — every job is queued and
reaches exactly one terminal outcome. -/
theorem C10_run_summary_invariant (student_data : PackDict) (jobs_data : List JobDict)
    (oracle : ℕ → Bool) (r : RunResult)
    (hok : run_autopilot student_data jobs_data oracle = .ok r)
    (hs : r.success = true) :
    ∃ summ, r.summary = some summ
      ∧ summ.queued = jobs_data.length
      ∧ summ.queued = summ.skipped + summ.submitted + summ.retried + summ.failed := by
  unfold run_autopilot at hok
  cases hps : parseStudentArtifactPack student_data with
  | error e =>
    rw [hps] at hok
    injection hok with hok
    subst hok
    exact absurd hs (by simp)
  | ok student =>
    rw [hps] at hok
    dsimp only at hok
    cases hpj : parseJobs 0 jobs_data with
    | error e =>
      rw [hpj] at hok
      injection hok with hok
      subst hok
      exact absurd hs (by simp)
    | ok jobs =>
      rw [hpj] at hok
      dsimp only at hok
      cases hf : List.foldlM (processJob student oracle) EngState.init jobs with
      | error e => rw [hf] at hok; exact absurd hok (by simp [Except.map])
      | ok sfin =>
        rw [hf] at hok
        simp only [Except.map] at hok
        injection hok with hok
        subst hok
        obtain ⟨h1, h2⟩ := foldlM_processJob_counts jobs EngState.init sfin hf
        refine ⟨_, rfl, ?_, ?_⟩
        · simp [h1, EngState.init, parseJobs_length 0 jobs_data jobs hpj]
        · simp [h1, EngState.init] at h2 ⊢
          simp [EngState.init] at h1
          omega

/-- A student pack whose constraints block the company `evil`. -/
def sdC10 : PackDict :=
  { source_resume_hash := some "h", skill_vocab := some [], education := some [],
    projects := some [],
    constraints := some { max_apps_per_day := some 5, min_match_score := some (6/10),
                          blocked_companies := some ["evil"] },
    extras := [] }

/-- A schema-clean job listing from the blocked company. -/
def jdC10 : JobDict :=
  { job_id := some "jb", company := some "evil", role := some "r", location := some "l",
    required_skills := some [], min_experience_years := some 0, extras := [] }

/-- The run result of the C10 witness scenario: the one job is queued and
skipped by the eligibility validator. -/
def rC10 : RunResult :=
  { success := true, error := none,
    summary := some { queued := 1, skipped := 1, submitted := 0, retried := 0, failed := 0 },
    events := some
      [{ job_id := "jb", status := "queued", reason := none, receipt_id := none,
         timestamp := 0 },
       { job_id := "jb", status := "skipped",
         reason := some "Company evil is blocked by user constraints",
         receipt_id := none, timestamp := 1 }] }

/-- Witness for C10: the invariant applied at a concrete one-job run. -/
theorem C10_witness :
    ∃ summ, rC10.summary = some summ
      ∧ summ.queued = ([jdC10] : List JobDict).length
      ∧ summ.queued = summ.skipped + summ.submitted + summ.retried + summ.failed :=
  C10_run_summary_invariant sdC10 [jdC10] (fun _ => false) rC10 rfl rfl

/-! ## C3 — the gateway can never persist a successful run -/

/-- A fully approved pack: one verified bullet, skills in the vocabulary,
all required fields present. -/
def packC3 : PackDict :=
  { source_resume_hash := some "h", skill_vocab := some ["python"], education := some [],
    projects := some [{ name := some "p", description := some "pd",
                        skills := some ["python"],
                        bullets := some [{ description := some "d",
                                           skills := some ["python"],
                                           verified := some true, proofs := none }] }],
    constraints := some { max_apps_per_day := some 5, min_match_score := some (1/2),
                          blocked_companies := some [] },
    extras := [] }

/-- The stored snapshot row of the C3 scenario. -/
def rowC3 : SnapshotRow :=
  { id := "s3", user_id := 1, student_artifact_pack := packC3, approved_at := 0,
    source_resume_hash := "h", source_profile_hash := "ph",
    approval_metadata := metaC2, integrity_hash := "x" }

/-- The stored job listing of the C3 scenario. -/
def jobRowC3 : JobRow :=
  { job_id := "job1", company := "acme", role := "dev", location := "remote",
    required_skills := ["python"], min_experience_years := 0, is_active := true }

/-- The C3 database: an approved snapshot for user 1 and one active job. -/
def dbC3 : DB :=
  { jobs := [jobRowC3], snapshots := [rowC3], drafts := [], runs := [], history := [] }

/-- The snapshot `get_current_approved` reconstructs in the C3 scenario. -/
def snapC3 : ArtifactSnapshot :=
  { id := "s3", user_id := 1, student_artifact_pack := packC3, approved_at := 0,
    source_resume_hash := "h", source_profile_hash := "ph", frozen := true,
    approval_metadata := metaC2 }

/-- C3 (code bug, evaluated at the failing input): with a fully approved,
frozen, all-verified snapshot and one active job — every precondition of
the claim met — `validate_and_execute` still returns a failure and
persists nothing: the job dictionaries read from the store carry the five
persisted-only keys, which `JobListing`'s `extra='forbid'` schema rejects,
so the engine invocation returns `success = False` (and even if it
succeeded, the `create_autopilot_run` call at `artifact_services.py:385`
passes a `profile_snapshot` keyword the method `database.py:407` does not
accept, raising `TypeError` inside the `except` block — see
`validate_and_execute_with`).  No `autopilot_runs` row is ever created. -/
theorem C3_gateway_never_persists_run :
    get_current_approved dbC3 1 = .ok (some snapC3)
    ∧ snapC3.frozen = true
    ∧ firstUnverifiedBullet snapC3.student_artifact_pack = none
    ∧ dbC3.get_job_by_id "job1" ≠ none
    ∧ validate_and_execute dbC3 1 ["job1"] (fun _ => false) =
        (.ok { success := false, run_id := none, summary := none,
               error := some ("Job entry #" ++ natStr 1 ++ " schema validation failed: "
                 ++ "JobListing: extra fields not permitted"),
               approved_snapshot_id := "s3" }, dbC3)
    ∧ (validate_and_execute dbC3 1 ["job1"] (fun _ => false)).2.runs = [] :=
  ⟨rfl, rfl, rfl, by decide, rfl, rfl⟩
